import Mathlib

/-!
# Device buffer pool and host-to-device stager of `ggml-vulkan.cpp`

A shallow embedding of the buffer pool (`ggml_vk_pool_malloc`, `ggml_vk_pool_free`), of the
strided host-to-device copy (`ggml_vk_h2d_tensor_2d`), of the eligibility and precision
selectors (`ggml_vk_can_mul_mat`, `ggml_vk_mul_mat_use_f16`, `ggml_vk_mul_mat_get_wsize`), of the
dispatch `ggml_vk_mul_mat` and of the two execution paths, followed by the properties
established about them.

Conventions of the embedding.

* `size_t` / `uint64_t` values are natural numbers; where the source computes in 64-bit
  arithmetic the result is reduced with `u64`.
* Handles (`vk::Buffer`) and allocator tokens (`VmaAllocation`) are natural numbers, `0` being
  the null handle of a default-constructed record.
* The global array `g_vk_buffer_pool[MAX_VK_BUFFERS]` is a function on `Fin MAX_VK_BUFFERS`.
* Calls of the external allocator are recorded, in order, in a list of `vma_call`.
* The spin lock only serialises callers and is not part of the sequential model.
* An execution path is the list of pool, staging and queue operations it performs, in program
  order; `int` locals are 32-bit two's complement (`int_of_int64`, `size_t_of_int`).
* What `ggml.h` and the device bring-up provide (type tables, tensor measures, the
  half-precision flag) is collected in `ggml_env` and passed as a parameter.
-/

set_option maxRecDepth 100000

namespace GgmlVulkan

/-! ## Data model -/

/-- Source: `#define MAX_VK_BUFFERS 256`. -/
def MAX_VK_BUFFERS : Nat := 256

/-- Source: `std::numeric_limits<size_t>::max()` on a 64-bit target. -/
def SIZE_MAX : Nat := 2 ^ 64 - 1

/-- Reduction of a natural number to an unsigned 64-bit machine word. -/
def u64 (n : Nat) : Nat := n % 2 ^ 64

/-- Source: `struct vk_buffer { vk::Buffer buffer; vmaAllocation allocation; size_t size = 0; }`. -/
structure vk_buffer where
  buffer : Nat
  allocation : Nat
  size : Nat
  deriving DecidableEq, Repr

/-- A default-constructed record: null handle, null token, `size = 0`. -/
instance : Inhabited vk_buffer := ⟨⟨0, 0, 0⟩⟩

/-- Source: `static vk_buffer g_vk_buffer_pool[MAX_VK_BUFFERS]`. -/
abbrev vk_buffer_pool := Fin MAX_VK_BUFFERS → vk_buffer

/-- The statically initialised pool: every slot default-constructed, hence Empty. -/
def g_vk_buffer_pool_init : vk_buffer_pool := fun _ => default

/-- Assignment to one slot of the pool array. -/
def pool_set (pool : vk_buffer_pool) (i : Fin MAX_VK_BUFFERS) (b : vk_buffer) : vk_buffer_pool :=
  fun j => if j = i then b else pool j

/-- Calls of the external device allocator, as they appear in the source. -/
inductive vma_call where
  | vmaCreateBuffer (size : Nat)
  | vmaDestroyBuffer (buffer allocation : Nat)
  | vmaMapMemory (allocation : Nat)
  | vmaUnmapMemory (allocation : Nat)
  deriving DecidableEq, Repr

/-! ## `ggml_vk_pool_malloc` -/

/-- The four locals of the scan loop; `none` stands for the index value `-1`. -/
structure pool_scan where
  best_i : Option (Fin MAX_VK_BUFFERS)
  best_size : Nat
  worst_i : Option (Fin MAX_VK_BUFFERS)
  worst_size : Nat
  deriving DecidableEq, Repr

/-- Locals before the loop: `best_i = -1`, `best_size = SIZE_MAX`, `worst_i = -1`,
`worst_size = 0`. -/
def pool_scan_init : pool_scan := ⟨none, SIZE_MAX, none, 0⟩

/-- One iteration of the scan loop for index `i` and slot `b = g_vk_buffer_pool[i]`. -/
def pool_scan_body (size : Nat) (i : Fin MAX_VK_BUFFERS) (b : vk_buffer) (s : pool_scan) :
    pool_scan :=
  let s1 : pool_scan :=
    if b.size > 0 ∧ b.size ≥ size ∧ b.size < s.best_size then
      { s with best_i := some i, best_size := b.size }
    else s
  if b.size > 0 ∧ b.size > s1.worst_size then
    { s1 with worst_i := some i, worst_size := b.size }
  else s1

/-- Locals after the iterations `i = 0, ..., n - 1` of
`for (int i = 0; i < MAX_VK_BUFFERS; ++i)`. -/
def pool_scan_loop (pool : vk_buffer_pool) (size : Nat) : Nat → pool_scan
  | 0 => pool_scan_init
  | i + 1 =>
    if h : i < MAX_VK_BUFFERS then
      pool_scan_body size ⟨i, h⟩ (pool ⟨i, h⟩) (pool_scan_loop pool size i)
    else pool_scan_loop pool size i

/-- Everything `ggml_vk_pool_malloc` leaves behind: the pool, the record the caller's pointer
designates (`buf` as the caller sees it), the record created by `new vk_buffer` (reachable only
through the callee's local copy of the pointer), and the allocator calls made. -/
structure pool_malloc_result where
  pool : vk_buffer_pool
  buf : vk_buffer
  new_buf : Option vk_buffer
  calls : List vma_call

/-- Source: `static void ggml_vk_pool_malloc(size_t size, vk_buffer* buf)`.
`created` is the handle and token that the external `vmaCreateBuffer` writes through
`&buf->buffer` and `&buf->allocation`.

On a hit the fields of the chosen slot are copied through the caller's pointer and the slot's
size is zeroed.  On a miss the largest cached slot (if any) is zeroed and destroyed, then the
local pointer is re-seated by `buf = new vk_buffer`, so `buf->size = size` and the created
handle and token land in the new record and the caller's record is not written. -/
def ggml_vk_pool_malloc (created : Nat × Nat) (pool : vk_buffer_pool) (size : Nat)
    (buf : vk_buffer) : pool_malloc_result :=
  let s := pool_scan_loop pool size MAX_VK_BUFFERS
  match s.best_i with
  | some best_i =>
    let b := pool best_i
    { pool := pool_set pool best_i { b with size := 0 }
      buf := { buffer := b.buffer, allocation := b.allocation, size := b.size }
      new_buf := none
      calls := [] }
  | none =>
    match s.worst_i with
    | some worst_i =>
      let b := pool worst_i
      { pool := pool_set pool worst_i { b with size := 0 }
        buf := buf
        new_buf := some { buffer := created.1, allocation := created.2, size := size }
        calls := [vma_call.vmaDestroyBuffer b.buffer b.allocation,
                  vma_call.vmaCreateBuffer size] }
    | none =>
      { pool := pool
        buf := buf
        new_buf := some { buffer := created.1, allocation := created.2, size := size }
        calls := [vma_call.vmaCreateBuffer size] }

/-! ## `ggml_vk_pool_free` -/

/-- State of the release loop: the pool and whether the loop has already executed `return`. -/
structure pool_free_loop_state where
  pool : vk_buffer_pool
  returned : Bool

/-- State after the iterations `i = 0, ..., n - 1` of the release loop.
In the body, `b.buffer` and `b.size` are assigned from the argument; the third statement,
`b.memory = buffer->memory`, names a member that `vk_buffer` does not declare, so none of the
three declared fields other than `buffer` and `size` is written: `b.allocation` keeps the value
the slot had. -/
def pool_free_loop (buffer : vk_buffer) (pool : vk_buffer_pool) : Nat → pool_free_loop_state
  | 0 => { pool := pool, returned := false }
  | i + 1 =>
    let st := pool_free_loop buffer pool i
    if st.returned then st
    else if h : i < MAX_VK_BUFFERS then
      let b := st.pool ⟨i, h⟩
      if b.size = 0 then
        { pool := pool_set st.pool ⟨i, h⟩ { b with buffer := buffer.buffer, size := buffer.size }
          returned := true }
      else st
    else st

/-- Everything `ggml_vk_pool_free` leaves behind: the pool, the caller's record (`none` once it
has been passed to `delete`), the allocator calls, and whether the warning was printed. -/
structure pool_free_result where
  pool : vk_buffer_pool
  buffer : Option vk_buffer
  calls : List vma_call
  warned : Bool

/-- Source: `static void ggml_vk_pool_free(vk_buffer* buffer)`. -/
def ggml_vk_pool_free (pool : vk_buffer_pool) (buffer : vk_buffer) : pool_free_result :=
  let st := pool_free_loop buffer pool MAX_VK_BUFFERS
  if st.returned then
    { pool := st.pool, buffer := some buffer, calls := [], warned := false }
  else
    { pool := st.pool
      buffer := none
      calls := [vma_call.vmaDestroyBuffer buffer.buffer buffer.allocation]
      warned := true }

/-- A slot is Cached when its recorded size is positive, Empty when it is zero. -/
def slot_cached (b : vk_buffer) : Prop := 0 < b.size

instance (b : vk_buffer) : Decidable (slot_cached b) := by
  unfold slot_cached; infer_instance

/-- Number of Cached slots of a pool. -/
def cached_count (pool : vk_buffer_pool) : Nat :=
  (List.finRange MAX_VK_BUFFERS).countP (fun i => decide (slot_cached (pool i)))

/-- One call on the pool, with the arguments the caller supplies and, for an acquire, the
handle and token the external allocator would hand out. -/
inductive pool_op where
  | malloc (created : Nat × Nat) (size : Nat) (buf : vk_buffer)
  | free (buffer : vk_buffer)

/-- Pool after one call. -/
def pool_step (pool : vk_buffer_pool) : pool_op → vk_buffer_pool
  | pool_op.malloc created size buf => (ggml_vk_pool_malloc created pool size buf).pool
  | pool_op.free buffer => (ggml_vk_pool_free pool buffer).pool

/-- Pool after a finite sequence of calls, executed left to right. -/
def pool_run (pool : vk_buffer_pool) (ops : List pool_op) : vk_buffer_pool :=
  ops.foldl pool_step pool

/-! ## Tensors and `ggml_vk_h2d_tensor_2d` -/

/-- Source: `enum ggml_type`, kept as the integer value of the enumerator.  The element size and
block size tables `ggml_type_size` and `ggml_blck_size` belong to `ggml.h` and are parameters
of the functions that consult them. -/
abbrev ggml_type := Nat

/-- Source: `enum ggml_backend`, the residency tag of a tensor. -/
inductive ggml_backend where
  | GGML_BACKEND_CPU
  | GGML_BACKEND_GPU
  deriving DecidableEq, Repr

/-- Byte-addressed memory seen from a base pointer: `m k` is the byte at `base + k`. -/
abbrev memory := Nat → Nat

/-- The members of `struct ggml_tensor` read by this file: `ne[0..3]`, `nb[0..3]`, `type`,
`backend`, and the host memory `data` points to. -/
structure ggml_tensor where
  type : ggml_type
  backend : ggml_backend
  ne0 : Nat
  ne1 : Nat
  ne2 : Nat
  ne3 : Nat
  nb0 : Nat
  nb1 : Nat
  nb2 : Nat
  nb3 : Nat
  data : memory

/-- Source: `memcpy(dst + d, src + s, n)` from one memory into another. -/
def memcpy (dst : memory) (d : Nat) (src : memory) (s : Nat) (n : Nat) : memory :=
  fun a => if d ≤ a ∧ a < d + n then src (s + (a - d)) else dst a

/-- Destination memory after the iterations `i1 = 0, ..., n - 1` of the row loop
`memcpy(dst_ptr + offset + ne0 * i1, x + ts*ne0/bs, ne0*nb0)`. -/
def h2d_row_loop (dst_mem : memory) (offset : Nat) (x : memory) (ne0 nb0 ts bs : Nat) :
    Nat → memory
  | 0 => dst_mem
  | i1 + 1 =>
    memcpy (h2d_row_loop dst_mem offset x ne0 nb0 ts bs i1) (offset + u64 (ne0 * i1))
      x (u64 (ts * ne0) / bs) (u64 (ne0 * nb0))

/-- Destination memory after the iterations `i0 = 0, ..., n - 1`, for a fixed `i1`, of the inner
loop `dst_ptr[offset + i1 * ts*ne0/bs + i0 * ts] = x[i1 * nb1 + i0 * nb0]`:
one byte is assigned per iteration. -/
def h2d_elem_loop (dst_mem : memory) (offset : Nat) (x : memory) (ne0 nb0 nb1 ts bs i1 : Nat) :
    Nat → memory
  | 0 => dst_mem
  | i0 + 1 =>
    fun a =>
      if a = u64 (offset + u64 (i1 * ts * ne0) / bs + i0 * ts) then x (u64 (i1 * nb1 + i0 * nb0))
      else h2d_elem_loop dst_mem offset x ne0 nb0 nb1 ts bs i1 i0 a

/-- Destination memory after the iterations `i1 = 0, ..., n - 1` of the outer loop of the
element-wise case. -/
def h2d_strided_loop (dst_mem : memory) (offset : Nat) (x : memory) (ne0 nb0 nb1 ts bs : Nat) :
    Nat → memory
  | 0 => dst_mem
  | i1 + 1 =>
    h2d_elem_loop (h2d_strided_loop dst_mem offset x ne0 nb0 nb1 ts bs i1)
      offset x ne0 nb0 nb1 ts bs i1 ne0

/-- What `ggml_vk_h2d_tensor_2d` leaves behind: the memory of the destination allocation and the
allocator calls made.  The returned `err` is never assigned in the source and is not modelled. -/
structure h2d_result where
  dst_mem : memory
  calls : List vma_call

/-- Source: `ggml_vk_h2d_tensor_2d(queue, dst, offset, src, i3, i2, ev)`.
`dst_mem` is the memory of `dst->allocation`, which `vmaMapMemory` exposes as `dst_ptr`;
`x` is `src->data + i2*nb2 + i3*nb3`. -/
def ggml_vk_h2d_tensor_2d (ggml_type_size ggml_blck_size : ggml_type → Nat)
    (dst : vk_buffer) (dst_mem : memory) (offset : Nat) (src : ggml_tensor) (i3 i2 : Nat) :
    h2d_result :=
  let ne0 := src.ne0
  let ne1 := src.ne1
  let nb0 := src.nb0
  let nb1 := src.nb1
  let nb2 := src.nb2
  let nb3 := src.nb3
  let ts := ggml_type_size src.type
  let bs := ggml_blck_size src.type
  let x : memory := fun k => src.data (u64 (i2 * nb2) + u64 (i3 * nb3) + k)
  if nb0 = ts ∧ nb1 = u64 (ts * ne0) / bs then
    { dst_mem := memcpy dst_mem offset x 0 (u64 (ne1 * nb1))
      calls := [vma_call.vmaMapMemory dst.allocation, vma_call.vmaUnmapMemory dst.allocation] }
  else if nb0 = ts then
    { dst_mem := h2d_row_loop dst_mem offset x ne0 nb0 ts bs ne1
      calls := [vma_call.vmaMapMemory dst.allocation, vma_call.vmaUnmapMemory dst.allocation] }
  else
    { dst_mem := h2d_strided_loop dst_mem offset x ne0 nb0 nb1 ts bs ne1
      calls := [vma_call.vmaMapMemory dst.allocation, vma_call.vmaUnmapMemory dst.allocation] }

/-! ## Statements about single pool calls -/

/-- Best-fit hit of an acquire: some Cached slot of minimal capacity among the Cached slots that
are large enough is handed to the caller (handle, token and capacity), that slot becomes Empty,
every other slot is unchanged and the allocator is not called. -/
def pool_malloc_best_fit_hit (created : Nat × Nat) (pool : vk_buffer_pool) (size : Nat)
    (buf : vk_buffer) : Prop :=
  ∃ i : Fin MAX_VK_BUFFERS,
    slot_cached (pool i) ∧ size ≤ (pool i).size ∧
    (∀ j : Fin MAX_VK_BUFFERS, slot_cached (pool j) → size ≤ (pool j).size →
      (pool i).size ≤ (pool j).size) ∧
    (ggml_vk_pool_malloc created pool size buf).buf = pool i ∧
    ((ggml_vk_pool_malloc created pool size buf).pool i).size = 0 ∧
    (∀ j : Fin MAX_VK_BUFFERS, j ≠ i →
      (ggml_vk_pool_malloc created pool size buf).pool j = pool j) ∧
    (ggml_vk_pool_malloc created pool size buf).calls = []

/-- Outcome of a release for the released record: some Cached slot of the resulting pool carries
its handle and its capacity, or it has been handed to `vmaDestroyBuffer`. -/
def pool_free_keeps_or_destroys (pool : vk_buffer_pool) (buffer : vk_buffer) : Prop :=
  (∃ i : Fin MAX_VK_BUFFERS,
    slot_cached ((ggml_vk_pool_free pool buffer).pool i) ∧
    ((ggml_vk_pool_free pool buffer).pool i).buffer = buffer.buffer ∧
    ((ggml_vk_pool_free pool buffer).pool i).size = buffer.size) ∨
  vma_call.vmaDestroyBuffer buffer.buffer buffer.allocation ∈
    (ggml_vk_pool_free pool buffer).calls

/-! ## Concrete inputs -/

/-- A pool whose first three slots cache buffers of capacities 64, 256 and 1024. -/
def pool_64_256_1024 : vk_buffer_pool :=
  fun i => if i.val = 0 then ⟨1, 11, 64⟩ else if i.val = 1 then ⟨2, 12, 256⟩
    else if i.val = 2 then ⟨3, 13, 1024⟩ else default

/-- A pool whose first three slots cache buffers of capacities 64, 128 and 512. -/
def pool_64_128_512 : vk_buffer_pool :=
  fun i => if i.val = 0 then ⟨1, 11, 64⟩ else if i.val = 1 then ⟨2, 12, 128⟩
    else if i.val = 2 then ⟨3, 13, 512⟩ else default

/-- A pool whose only Cached slot, slot 0, records the capacity `SIZE_MAX`. -/
def pool_size_max : vk_buffer_pool :=
  fun i => if i.val = 0 then ⟨7, 9, SIZE_MAX⟩ else default

/-- A saturated pool: slot `i` caches a buffer of capacity `i + 1`. -/
def pool_saturated : vk_buffer_pool :=
  fun i => ⟨i.val + 1, i.val + 1001, i.val + 1⟩

/-- Element size table used by the concrete tensors: 4 bytes per element. -/
def type_size_4 : ggml_type → Nat := fun _ => 4

/-- Block size table used by the concrete tensors: one element per block. -/
def blck_size_1 : ggml_type → Nat := fun _ => 1

/-- Host memory whose byte at address `k` is `k + 1` (modulo 256). -/
def host_bytes : memory := fun k => (k + 1) % 256

/-- Zero-filled device memory. -/
def zero_mem : memory := fun _ => 0

/-- A 2 x 2 tensor of 4-byte elements whose rows are contiguous (`nb0 = 4`) but 16 bytes
apart (`nb1 = 16`, not the packed 8). -/
def tensor_row_padded : ggml_tensor :=
  { type := 0, backend := ggml_backend.GGML_BACKEND_CPU
    ne0 := 2, ne1 := 2, ne2 := 1, ne3 := 1
    nb0 := 4, nb1 := 16, nb2 := 32, nb3 := 32
    data := host_bytes }

/-- A 2 x 2 tensor of 4-byte elements placed 8 bytes apart (`nb0 = 8`), rows 16 bytes apart. -/
def tensor_strided : ggml_tensor :=
  { type := 0, backend := ggml_backend.GGML_BACKEND_CPU
    ne0 := 2, ne1 := 2, ne2 := 1, ne3 := 1
    nb0 := 8, nb1 := 16, nb2 := 32, nb3 := 32
    data := host_bytes }

/-- A packed 2 x 3 x 2 x 1 tensor of 4-byte elements (`nb0 = 4`, `nb1 = 8`, `nb2 = 24`). -/
def tensor_packed : ggml_tensor :=
  { type := 0, backend := ggml_backend.GGML_BACKEND_CPU
    ne0 := 2, ne1 := 3, ne2 := 2, ne3 := 1
    nb0 := 4, nb1 := 8, nb2 := 24, nb3 := 48
    data := host_bytes }

/-! ## Eligibility, precision selection and dispatch -/

/-- Modelled from the spec: the enumerator of `enum ggml_type` for the 32-bit float element
type; the enumeration is declared in `ggml.h`, where this is its first enumerator. -/
def GGML_TYPE_F32 : ggml_type := 0

/-- Modelled from the spec: the enumerator of `enum ggml_type` for the 16-bit float element
type; the enumeration is declared in `ggml.h`, where this is its second enumerator. -/
def GGML_TYPE_F16 : ggml_type := 1

/-- Source: `sizeof(float)`. -/
def sizeof_float : Nat := 4

/-- Source: `sizeof(ggml_fp16_t)`. -/
def sizeof_ggml_fp16_t : Nat := 2

/-- What the functions below consult and `ggml-vulkan.cpp` does not define: the type tables
and tensor measures of `ggml.h`, and the capability flag `vk_fp16_support`, a global that the
device bring-up is expected to set. -/
structure ggml_env where
  ggml_type_size : ggml_type → Nat
  ggml_blck_size : ggml_type → Nat
  ggml_is_quantized : ggml_type → Bool
  ggml_nbytes : ggml_tensor → Nat
  ggml_nelements : ggml_tensor → Nat
  vk_fp16_support : Bool

/-- Source: `bool ggml_vk_can_mul_mat(src0, src1, dst)`. -/
def ggml_vk_can_mul_mat (env : ggml_env) (src0 src1 dst : ggml_tensor) : Bool :=
  let ne10 := src1.ne0
  let ne0 := dst.ne0
  let ne1 := dst.ne1
  if (src0.type = GGML_TYPE_F32 ∨ src0.type = GGML_TYPE_F16 ∨
        env.ggml_is_quantized src0.type = true) ∧
      src1.type = GGML_TYPE_F32 ∧
      dst.type = GGML_TYPE_F32 ∧
      ((ne0 ≥ 32 ∧ ne1 ≥ 32 ∧ ne10 ≥ 32) ∨ src0.backend = ggml_backend.GGML_BACKEND_GPU) then
    true
  else false

/-- Source: `bool ggml_vk_mul_mat_use_f16(src0, src1, dst)`; the third argument is unnamed and
unused.  All sums and the product are `size_t` arithmetic. -/
def ggml_vk_mul_mat_use_f16 (env : ggml_env) (src0 src1 : ggml_tensor) : Bool :=
  if env.vk_fp16_support = false then false
  else
    let src0_sz := env.ggml_nbytes src0
    let src1_sz := env.ggml_nbytes src1
    let mul_mat_q_transfer := u64 (src0_sz + src1_sz)
    let mul_mat_f16_transfer :=
      u64 (src0_sz + u64 (sizeof_ggml_fp16_t * env.ggml_nelements src1))
    decide (mul_mat_f16_transfer < mul_mat_q_transfer)

/-- Source: `size_t ggml_vk_mul_mat_get_wsize(src0, src1, dst)`. -/
def ggml_vk_mul_mat_get_wsize (env : ggml_env) (src0 src1 : ggml_tensor) : Nat :=
  if ggml_vk_mul_mat_use_f16 env src0 src1 = true then
    u64 (env.ggml_nelements src1 * sizeof_ggml_fp16_t)
  else 0

/-! ## The two execution paths as sequences of pool and queue operations -/

/-- Narrowing of a 64-bit signed value to `int` (32 bits, two's complement), as in
`const int x_ne = ne01 * ne00;`. -/
def int_of_int64 (n : Int) : Int := (n + 2 ^ 31) % 2 ^ 32 - 2 ^ 31

/-- Conversion of an `int` to `size_t`, as applied to the `int` operand of
`sizeof(float) * y_ne`. -/
def size_t_of_int (i : Int) : Nat := (i % 2 ^ 64).toNat

/-- The local buffer variables of the two execution paths. -/
inductive vk_buf_var where
  | d_X
  | d_Y
  | d_D
  | d_Q
  deriving DecidableEq, Repr

/-- The two operand tensors of a matmul call. -/
inductive tensor_arg where
  | src0
  | src1
  deriving DecidableEq, Repr

/-- The operations an execution path performs, in program order: pool calls with the variable
they fill or release, the assignment of `src0->data` to a buffer variable, staging calls with
their batch indices, and the queue operations. -/
inductive pipeline_event where
  | pool_malloc (size : Nat) (v : vk_buf_var)
  | pool_free (v : vk_buf_var)
  | bind_src0_data (v : vk_buf_var)
  | h2d_tensor_2d (v : vk_buf_var) (src : tensor_arg) (i03 i02 : Nat)
  | vkFinish
  | gemm
  | to_fp32_kernel
  | dmmv_kernel
  | copy_dst_to_host (i02 i03 : Nat)
  deriving DecidableEq, Repr

/-- Operations of `for (i = 0; i < n; i++) body(i)`. -/
def loop_events (body : Nat → List pipeline_event) : Nat → List pipeline_event
  | 0 => []
  | n + 1 => loop_events body n ++ body n

/-- Body of the batch loops of `ggml_vk_mul_mat_f32` for one pair `(i03, i02)`; the dense
multiply is taken to report success. -/
def mul_mat_f32_slice (src0 : ggml_tensor) (i03 i02 : Nat) : List pipeline_event :=
  (if src0.backend ≠ ggml_backend.GGML_BACKEND_GPU then
      [pipeline_event.h2d_tensor_2d vk_buf_var.d_X tensor_arg.src0 i03 i02]
    else []) ++
  [pipeline_event.h2d_tensor_2d vk_buf_var.d_Y tensor_arg.src1 i03 i02,
   pipeline_event.vkFinish,
   pipeline_event.gemm,
   pipeline_event.copy_dst_to_host i02 i03]

/-- Source: `static void ggml_vk_mul_mat_f32(src0, src1, dst)`, as the sequence of operations
it performs. -/
def ggml_vk_mul_mat_f32 (src0 src1 : ggml_tensor) : List pipeline_event :=
  let ne00 : Int := src0.ne0
  let ne01 : Int := src0.ne1
  let ne02 := src0.ne2
  let ne03 := src0.ne3
  let ne10 : Int := src1.ne0
  let ne11 : Int := src1.ne1
  let x_ne := int_of_int64 (ne01 * ne00)
  let y_ne := int_of_int64 (ne11 * ne10)
  let d_ne := int_of_int64 (ne11 * ne01)
  (if src0.backend = ggml_backend.GGML_BACKEND_GPU then
      [pipeline_event.bind_src0_data vk_buf_var.d_X]
    else
      [pipeline_event.pool_malloc (u64 (sizeof_ggml_fp16_t * size_t_of_int x_ne))
        vk_buf_var.d_X]) ++
  [pipeline_event.pool_malloc (u64 (sizeof_float * size_t_of_int y_ne)) vk_buf_var.d_Y,
   pipeline_event.pool_malloc (u64 (sizeof_float * size_t_of_int d_ne)) vk_buf_var.d_D] ++
  loop_events (fun i03 => loop_events (fun i02 => mul_mat_f32_slice src0 i03 i02) ne02) ne03 ++
  (if src0.backend ≠ ggml_backend.GGML_BACKEND_GPU then
      [pipeline_event.pool_free vk_buf_var.d_X]
    else []) ++
  [pipeline_event.pool_free vk_buf_var.d_Y, pipeline_event.pool_free vk_buf_var.d_D]

/-- Body of the batch loops of `ggml_vk_mul_mat_q_f32` for one pair `(i03, i02)`;
`mul_mat_vec` is `ne11 == 1`.  The two residency values of `ggml_backend` leave the final
`GGML_ASSERT(false)` of the residency test without an input, and the dense multiply is taken to
report success. -/
def mul_mat_q_f32_slice (src0 : ggml_tensor) (mul_mat_vec : Bool) (i03 i02 : Nat) :
    List pipeline_event :=
  (if src0.backend = ggml_backend.GGML_BACKEND_CPU then
      [pipeline_event.h2d_tensor_2d vk_buf_var.d_Q tensor_arg.src0 i03 i02]
    else [pipeline_event.bind_src0_data vk_buf_var.d_Q]) ++
  (if mul_mat_vec = true then
      [pipeline_event.h2d_tensor_2d vk_buf_var.d_Y tensor_arg.src1 i03 i02,
       pipeline_event.dmmv_kernel]
    else
      [pipeline_event.to_fp32_kernel,
       pipeline_event.h2d_tensor_2d vk_buf_var.d_Y tensor_arg.src1 i03 i02,
       pipeline_event.vkFinish,
       pipeline_event.gemm]) ++
  [pipeline_event.copy_dst_to_host i02 i03]

/-- Source: `static void ggml_vk_mul_mat_q_f32(src0, src1, dst)`, as the sequence of operations
it performs; the kernel lookup `ggml_get_to_fp32_vk` is taken to succeed. -/
def ggml_vk_mul_mat_q_f32 (env : ggml_env) (src0 src1 : ggml_tensor) : List pipeline_event :=
  let ne00 : Int := src0.ne0
  let ne01 : Int := src0.ne1
  let ne02 := src0.ne2
  let ne03 := src0.ne3
  let ne10 : Int := src1.ne0
  let ne11 : Int := src1.ne1
  let mul_mat_vec : Bool := decide (ne11 = 1)
  let x_ne := int_of_int64 (ne01 * ne00)
  let y_ne := int_of_int64 (ne11 * ne10)
  let d_ne := int_of_int64 (ne11 * ne01)
  let q_sz := u64 (env.ggml_type_size src0.type * size_t_of_int x_ne) /
    env.ggml_blck_size src0.type
  (if mul_mat_vec = false then
      [pipeline_event.pool_malloc (u64 (sizeof_float * size_t_of_int x_ne)) vk_buf_var.d_X]
    else []) ++
  [pipeline_event.pool_malloc (u64 (sizeof_float * size_t_of_int y_ne)) vk_buf_var.d_Y,
   pipeline_event.pool_malloc (u64 (sizeof_float * size_t_of_int d_ne)) vk_buf_var.d_D] ++
  (if src0.backend = ggml_backend.GGML_BACKEND_CPU then
      [pipeline_event.pool_malloc q_sz vk_buf_var.d_Q]
    else []) ++
  loop_events
    (fun i03 => loop_events (fun i02 => mul_mat_q_f32_slice src0 mul_mat_vec i03 i02) ne02)
    ne03 ++
  (if mul_mat_vec = false then [pipeline_event.pool_free vk_buf_var.d_X] else []) ++
  [pipeline_event.pool_free vk_buf_var.d_Y, pipeline_event.pool_free vk_buf_var.d_D] ++
  (if src0.backend = ggml_backend.GGML_BACKEND_CPU then
      [pipeline_event.pool_free vk_buf_var.d_Q]
    else [])

/-- How a call of `ggml_vk_mul_mat` ends: in the entry assertion, in one of the two execution
paths (with the operations performed), in the half-precision branch, whose only statement is
the commented-out call `// ggml_vk_mul_mat_f16(...)`, or in the final `GGML_ASSERT(false)`. -/
inductive mul_mat_result where
  | assert_can_mul_mat
  | ran_mul_mat_f32 (events : List pipeline_event)
  | f16_branch_nothing_run
  | ran_mul_mat_q_f32 (events : List pipeline_event)
  | assert_false
  deriving DecidableEq, Repr

/-- Source: `void ggml_vk_mul_mat(src0, src1, dst, wdata, wsize)`; `wdata` and `wsize` are not
read by the body. -/
def ggml_vk_mul_mat (env : ggml_env) (src0 src1 dst : ggml_tensor) : mul_mat_result :=
  if ggml_vk_can_mul_mat env src0 src1 dst = false then mul_mat_result.assert_can_mul_mat
  else if src0.type = GGML_TYPE_F32 then
    mul_mat_result.ran_mul_mat_f32 (ggml_vk_mul_mat_f32 src0 src1)
  else if src0.type = GGML_TYPE_F16 then
    if ggml_vk_mul_mat_use_f16 env src0 src1 = true then
      mul_mat_result.f16_branch_nothing_run
    else mul_mat_result.ran_mul_mat_q_f32 (ggml_vk_mul_mat_q_f32 env src0 src1)
  else if env.ggml_is_quantized src0.type = true then
    mul_mat_result.ran_mul_mat_q_f32 (ggml_vk_mul_mat_q_f32 env src0 src1)
  else mul_mat_result.assert_false

/-- The call ran exactly one execution path. -/
def mul_mat_result.ran_one_path : mul_mat_result → Bool
  | mul_mat_result.ran_mul_mat_f32 _ => true
  | mul_mat_result.ran_mul_mat_q_f32 _ => true
  | _ => false

/-- The event releases variable `v` to the pool. -/
def is_pool_free (v : vk_buf_var) : pipeline_event → Bool
  | pipeline_event.pool_free w => decide (w = v)
  | _ => false

/-- The event acquires a pool buffer into variable `v`. -/
def is_pool_malloc (v : vk_buf_var) : pipeline_event → Bool
  | pipeline_event.pool_malloc _ w => decide (w = v)
  | _ => false

/-- The event stages tensor `t` through `ggml_vk_h2d_tensor_2d`. -/
def is_h2d_of (t : tensor_arg) : pipeline_event → Bool
  | pipeline_event.h2d_tensor_2d _ s _ _ => decide (s = t)
  | _ => false

/-- Number of releases of variable `v` in a sequence of operations. -/
def releases (v : vk_buf_var) (events : List pipeline_event) : Nat :=
  events.countP (is_pool_free v)

/-- Number of acquisitions into variable `v` in a sequence of operations. -/
def acquisitions (v : vk_buf_var) (events : List pipeline_event) : Nat :=
  events.countP (is_pool_malloc v)

/-! ## Concrete tensors and tables -/

/-- Tables for the concrete tensors: 4-byte floats, 2-byte halves, and every other type a
block format of 32 elements in 18 bytes; element count and byte size of a packed tensor. -/
def env_tables (fp16 : Bool) : ggml_env :=
  { ggml_type_size := fun t => if t = GGML_TYPE_F32 then 4 else if t = GGML_TYPE_F16 then 2 else 18
    ggml_blck_size := fun t => if t = GGML_TYPE_F32 then 1 else if t = GGML_TYPE_F16 then 1 else 32
    ggml_is_quantized := fun t => decide (2 ≤ t)
    ggml_nbytes := fun t =>
      t.ne0 * t.ne1 * t.ne2 * t.ne3 *
        (if t.type = GGML_TYPE_F32 then 4 else if t.type = GGML_TYPE_F16 then 2 else 18) /
        (if t.type = GGML_TYPE_F32 then 1 else if t.type = GGML_TYPE_F16 then 1 else 32)
    ggml_nelements := fun t => t.ne0 * t.ne1 * t.ne2 * t.ne3
    vk_fp16_support := fp16 }

/-- A packed tensor of the given type, residency and extents over `host_bytes`. -/
def packed_tensor (type : ggml_type) (backend : ggml_backend) (ne0 ne1 ne2 ne3 : Nat) :
    ggml_tensor :=
  { type := type, backend := backend
    ne0 := ne0, ne1 := ne1, ne2 := ne2, ne3 := ne3
    nb0 := (env_tables false).ggml_type_size type
    nb1 := (env_tables false).ggml_type_size type * ne0 / (env_tables false).ggml_blck_size type
    nb2 := (env_tables false).ggml_type_size type * ne0 / (env_tables false).ggml_blck_size type
      * ne1
    nb3 := (env_tables false).ggml_type_size type * ne0 / (env_tables false).ggml_blck_size type
      * ne1 * ne2
    data := host_bytes }

/-! ## The half-precision flag, the batch loops and the pool calls of a path -/

/-- Source: `bool vk_fp16_support = false;` (line 26).  No statement of the file assigns the
flag, `ggml_vk_init` included, so this is the value every call reads. -/
def vk_fp16_support : Bool := false

/-- Operations a call of `ggml_vk_mul_mat` performed: those of the execution path it ran, none
when it ran no path. -/
def mul_mat_result.events : mul_mat_result → List pipeline_event
  | mul_mat_result.ran_mul_mat_f32 events => events
  | mul_mat_result.ran_mul_mat_q_f32 events => events
  | _ => []

/-- The two nested batch loops of `ggml_vk_mul_mat_f32`, lines 273-306. -/
def mul_mat_f32_batch_loops (src0 : ggml_tensor) : List pipeline_event :=
  loop_events (fun i03 => loop_events (fun i02 => mul_mat_f32_slice src0 i03 i02) src0.ne2)
    src0.ne3

/-- The two nested batch loops of `ggml_vk_mul_mat_q_f32`, lines 358-426. -/
def mul_mat_q_f32_batch_loops (src0 src1 : ggml_tensor) : List pipeline_event :=
  loop_events
    (fun i03 => loop_events
      (fun i02 => mul_mat_q_f32_slice src0 (decide ((src1.ne1 : Int) = 1)) i03 i02) src0.ne2)
    src0.ne3

/-- How often `ggml_vk_mul_mat_f32` takes each buffer variable from the pool: `d_Y` and `d_D`
once, `d_X` once unless src0 is device-resident, `d_Q` never. -/
def mul_mat_f32_pooled (src0 : ggml_tensor) : vk_buf_var → Nat
  | vk_buf_var.d_X => if src0.backend = ggml_backend.GGML_BACKEND_GPU then 0 else 1
  | vk_buf_var.d_Y => 1
  | vk_buf_var.d_D => 1
  | vk_buf_var.d_Q => 0

/-- How often `ggml_vk_mul_mat_q_f32` takes each buffer variable from the pool: `d_Y` and `d_D`
once, `d_X` once unless `ne11 == 1`, `d_Q` once when src0 is host-resident. -/
def mul_mat_q_f32_pooled (src0 src1 : ggml_tensor) : vk_buf_var → Nat
  | vk_buf_var.d_X => if src1.ne1 = 1 then 0 else 1
  | vk_buf_var.d_Y => 1
  | vk_buf_var.d_D => 1
  | vk_buf_var.d_Q => if src0.backend = ggml_backend.GGML_BACKEND_CPU then 1 else 0

/-- The sequence `events` is a prefix, then `loops`, then a suffix, where the prefix holds all
acquisitions (`pooled v` of variable `v`) and no release, `loops` holds neither, and the suffix
holds all releases (`pooled v` of variable `v`) and no acquisition. -/
def acquires_before_releases_after (events loops : List pipeline_event)
    (pooled : vk_buf_var → Nat) : Prop :=
  ∃ pre post : List pipeline_event,
    events = pre ++ loops ++ post ∧
    (∀ v : vk_buf_var, acquisitions v pre = pooled v ∧ releases v pre = 0) ∧
    (∀ v : vk_buf_var, acquisitions v loops = 0 ∧ releases v loops = 0) ∧
    (∀ v : vk_buf_var, acquisitions v post = 0 ∧ releases v post = pooled v)

/-- State while the pool calls of an execution path are carried out by the pool functions
above: the pool, the path's local records `d_X`, `d_Y`, `d_D`, `d_Q`, the buffers obtained from
`ggml_vk_pool_malloc` so far (the cached buffer on a hit, the buffer made by `vmaCreateBuffer`
on a miss), the records handed to `ggml_vk_pool_free` so far, and the allocator calls. -/
structure pool_calls_state where
  pool : vk_buffer_pool
  vars : vk_buf_var → vk_buffer
  obtained : List vk_buffer
  released : List vk_buffer
  calls : List vma_call

/-- State before a path starts on a given pool: the local records are default-constructed. -/
def pool_calls_init (pool : vk_buffer_pool) : pool_calls_state :=
  { pool := pool, vars := fun _ => default, obtained := [], released := [], calls := [] }

/-- Effect of one operation of a path on the pool and on the path's local records:
`ggml_vk_pool_malloc(size, &v)` and `ggml_vk_pool_free(v)` are the pool functions above applied
to the record of `v`; `fresh k` is the handle and token the allocator hands out at its `k`-th
creation, `src0_data` the record of a device-resident src0.  Staging and queue operations do
not touch the pool or the records. -/
def run_pool_call (fresh : Nat → Nat × Nat) (src0_data : vk_buffer) (st : pool_calls_state) :
    pipeline_event → pool_calls_state
  | pipeline_event.pool_malloc size v =>
    let r := ggml_vk_pool_malloc (fresh st.obtained.length) st.pool size (st.vars v)
    { pool := r.pool
      vars := fun w => if w = v then r.buf else st.vars w
      obtained := st.obtained ++ [match r.new_buf with
        | some b => b
        | none => r.buf]
      released := st.released
      calls := st.calls ++ r.calls }
  | pipeline_event.pool_free v =>
    let r := ggml_vk_pool_free st.pool (st.vars v)
    { pool := r.pool
      vars := st.vars
      obtained := st.obtained
      released := st.released ++ [st.vars v]
      calls := st.calls ++ r.calls }
  | pipeline_event.bind_src0_data v =>
    { pool := st.pool
      vars := fun w => if w = v then src0_data else st.vars w
      obtained := st.obtained
      released := st.released
      calls := st.calls }
  | _ => st

/-- The pool calls of a whole path, carried out in program order. -/
def run_pool_calls (fresh : Nat → Nat × Nat) (src0_data : vk_buffer) (st : pool_calls_state)
    (events : List pipeline_event) : pool_calls_state :=
  events.foldl (run_pool_call fresh src0_data) st

/-- Handles and tokens of the concrete runs: the `k`-th creation yields handle `100 + k` and
token `200 + k`. -/
def fresh_handles : Nat → Nat × Nat := fun k => (100 + k, 200 + k)

/-! ## The scan loop of `ggml_vk_pool_malloc` -/

theorem pool_set_same (pool : vk_buffer_pool) (i : Fin MAX_VK_BUFFERS) (b : vk_buffer) :
    pool_set pool i b i = b := by
  simp [pool_set]

theorem pool_set_other (pool : vk_buffer_pool) (i j : Fin MAX_VK_BUFFERS) (b : vk_buffer)
    (h : j ≠ i) : pool_set pool i b j = pool j := by
  simp [pool_set, h]

theorem pool_scan_body_best_i (size : Nat) (i : Fin MAX_VK_BUFFERS) (b : vk_buffer)
    (s : pool_scan) :
    (pool_scan_body size i b s).best_i =
      if 0 < b.size ∧ size ≤ b.size ∧ b.size < s.best_size then some i else s.best_i := by
  simp only [pool_scan_body, gt_iff_lt, ge_iff_le]
  split_ifs <;> rfl

theorem pool_scan_body_best_size (size : Nat) (i : Fin MAX_VK_BUFFERS) (b : vk_buffer)
    (s : pool_scan) :
    (pool_scan_body size i b s).best_size =
      if 0 < b.size ∧ size ≤ b.size ∧ b.size < s.best_size then b.size else s.best_size := by
  simp only [pool_scan_body, gt_iff_lt, ge_iff_le]
  split_ifs <;> rfl

theorem pool_scan_body_worst_i (size : Nat) (i : Fin MAX_VK_BUFFERS) (b : vk_buffer)
    (s : pool_scan) :
    (pool_scan_body size i b s).worst_i =
      if 0 < b.size ∧ s.worst_size < b.size then some i else s.worst_i := by
  simp only [pool_scan_body, gt_iff_lt, ge_iff_le]
  split_ifs <;> rfl

theorem pool_scan_body_worst_size (size : Nat) (i : Fin MAX_VK_BUFFERS) (b : vk_buffer)
    (s : pool_scan) :
    (pool_scan_body size i b s).worst_size =
      if 0 < b.size ∧ s.worst_size < b.size then b.size else s.worst_size := by
  simp only [pool_scan_body, gt_iff_lt, ge_iff_le]
  split_ifs <;> rfl

theorem pool_scan_loop_succ (pool : vk_buffer_pool) (size n : Nat) (h : n < MAX_VK_BUFFERS) :
    pool_scan_loop pool size (n + 1) =
      pool_scan_body size ⟨n, h⟩ (pool ⟨n, h⟩) (pool_scan_loop pool size n) := by
  simp [pool_scan_loop, h]

/-- Invariant of the best-fit half of the scan after `n` iterations: with no candidate yet,
`best_size` is still the sentinel and no visited slot is Cached, large enough and below the
sentinel; with a candidate, it is a visited Cached slot that is large enough, `best_size` is its
size, and no visited Cached slot that is large enough is smaller. -/
theorem pool_scan_best_inv (pool : vk_buffer_pool) (size : Nat) :
    ∀ n : Nat, n ≤ MAX_VK_BUFFERS →
      ((pool_scan_loop pool size n).best_i = none →
        (pool_scan_loop pool size n).best_size = SIZE_MAX ∧
        ∀ j : Fin MAX_VK_BUFFERS, j.val < n →
          ¬ (0 < (pool j).size ∧ size ≤ (pool j).size ∧ (pool j).size < SIZE_MAX)) ∧
      (∀ i : Fin MAX_VK_BUFFERS, (pool_scan_loop pool size n).best_i = some i →
        i.val < n ∧ 0 < (pool i).size ∧ size ≤ (pool i).size ∧
        (pool_scan_loop pool size n).best_size = (pool i).size ∧
        ∀ j : Fin MAX_VK_BUFFERS, j.val < n → 0 < (pool j).size → size ≤ (pool j).size →
          (pool i).size ≤ (pool j).size) := by
  intro n
  induction n with
  | zero =>
    intro _
    refine ⟨fun _ => ⟨rfl, fun j hj => absurd hj (Nat.not_lt_zero _)⟩, fun i hi => ?_⟩
    simp [pool_scan_loop, pool_scan_init] at hi
  | succ n ih =>
    intro hn
    have hlt : n < MAX_VK_BUFFERS := hn
    obtain ⟨ihn, ihs⟩ := ih (Nat.le_of_lt hlt)
    rw [pool_scan_loop_succ pool size n hlt, pool_scan_body_best_i, pool_scan_body_best_size]
    by_cases hc : 0 < (pool ⟨n, hlt⟩).size ∧ size ≤ (pool ⟨n, hlt⟩).size ∧
        (pool ⟨n, hlt⟩).size < (pool_scan_loop pool size n).best_size
    · rw [if_pos hc, if_pos hc]
      refine ⟨fun h => by simp at h, fun i hi => ?_⟩
      have hi2 : (⟨n, hlt⟩ : Fin MAX_VK_BUFFERS) = i := by simpa using hi
      subst hi2
      refine ⟨Nat.lt_succ_self n, hc.1, hc.2.1, rfl, fun j hj hj0 hjs => ?_⟩
      rcases Nat.lt_succ_iff_lt_or_eq.mp hj with hjn | hjn
      · cases hb : (pool_scan_loop pool size n).best_i with
        | none =>
          obtain ⟨hsz, hnone⟩ := ihn hb
          have := hnone j hjn
          rw [hsz] at hc
          by_contra hcon
          exact this ⟨hj0, hjs, by omega⟩
        | some k =>
          obtain ⟨_, _, _, hsz, hmin⟩ := ihs k hb
          have := hmin j hjn hj0 hjs
          rw [hsz] at hc
          omega
      · have : j = ⟨n, hlt⟩ := Fin.ext hjn
        subst this
        exact Nat.le_refl _
    · rw [if_neg hc, if_neg hc]
      refine ⟨fun h => ?_, fun i hi => ?_⟩
      · obtain ⟨hsz, hnone⟩ := ihn h
        refine ⟨hsz, fun j hj => ?_⟩
        rcases Nat.lt_succ_iff_lt_or_eq.mp hj with hjn | hjn
        · exact hnone j hjn
        · have : j = ⟨n, hlt⟩ := Fin.ext hjn
          subst this
          rw [hsz] at hc
          exact hc
      · obtain ⟨hin, hi0, his, hsz, hmin⟩ := ihs i hi
        refine ⟨Nat.lt_succ_of_lt hin, hi0, his, hsz, fun j hj hj0 hjs => ?_⟩
        rcases Nat.lt_succ_iff_lt_or_eq.mp hj with hjn | hjn
        · exact hmin j hjn hj0 hjs
        · have : j = ⟨n, hlt⟩ := Fin.ext hjn
          subst this
          rw [hsz] at hc
          by_contra hcon
          exact hc ⟨hj0, hjs, by omega⟩

/-- Invariant of the worst-fit half of the scan after `n` iterations: with no candidate, every
visited slot is Empty; with a candidate, it is a visited Cached slot, `worst_size` is its size,
and no visited slot is larger. -/
theorem pool_scan_worst_inv (pool : vk_buffer_pool) (size : Nat) :
    ∀ n : Nat, n ≤ MAX_VK_BUFFERS →
      ((pool_scan_loop pool size n).worst_i = none →
        (pool_scan_loop pool size n).worst_size = 0 ∧
        ∀ j : Fin MAX_VK_BUFFERS, j.val < n → (pool j).size = 0) ∧
      (∀ i : Fin MAX_VK_BUFFERS, (pool_scan_loop pool size n).worst_i = some i →
        i.val < n ∧ 0 < (pool i).size ∧
        (pool_scan_loop pool size n).worst_size = (pool i).size ∧
        ∀ j : Fin MAX_VK_BUFFERS, j.val < n → (pool j).size ≤ (pool i).size) := by
  intro n
  induction n with
  | zero =>
    intro _
    refine ⟨fun _ => ⟨rfl, fun j hj => absurd hj (Nat.not_lt_zero _)⟩, fun i hi => ?_⟩
    simp [pool_scan_loop, pool_scan_init] at hi
  | succ n ih =>
    intro hn
    have hlt : n < MAX_VK_BUFFERS := hn
    obtain ⟨ihn, ihs⟩ := ih (Nat.le_of_lt hlt)
    rw [pool_scan_loop_succ pool size n hlt, pool_scan_body_worst_i, pool_scan_body_worst_size]
    by_cases hc : 0 < (pool ⟨n, hlt⟩).size ∧
        (pool_scan_loop pool size n).worst_size < (pool ⟨n, hlt⟩).size
    · rw [if_pos hc, if_pos hc]
      refine ⟨fun h => by simp at h, fun i hi => ?_⟩
      have hi2 : (⟨n, hlt⟩ : Fin MAX_VK_BUFFERS) = i := by simpa using hi
      subst hi2
      refine ⟨Nat.lt_succ_self n, hc.1, rfl, fun j hj => ?_⟩
      rcases Nat.lt_succ_iff_lt_or_eq.mp hj with hjn | hjn
      · cases hb : (pool_scan_loop pool size n).worst_i with
        | none =>
          have := (ihn hb).2 j hjn
          omega
        | some k =>
          obtain ⟨_, _, hsz, hmax⟩ := ihs k hb
          have := hmax j hjn
          rw [hsz] at hc
          omega
      · have : j = ⟨n, hlt⟩ := Fin.ext hjn
        subst this
        exact Nat.le_refl _
    · rw [if_neg hc, if_neg hc]
      refine ⟨fun h => ?_, fun i hi => ?_⟩
      · obtain ⟨hsz, hnone⟩ := ihn h
        refine ⟨hsz, fun j hj => ?_⟩
        rcases Nat.lt_succ_iff_lt_or_eq.mp hj with hjn | hjn
        · exact hnone j hjn
        · have : j = ⟨n, hlt⟩ := Fin.ext hjn
          subst this
          rw [hsz] at hc
          omega
      · obtain ⟨hin, hi0, hsz, hmax⟩ := ihs i hi
        refine ⟨Nat.lt_succ_of_lt hin, hi0, hsz, fun j hj => ?_⟩
        rcases Nat.lt_succ_iff_lt_or_eq.mp hj with hjn | hjn
        · exact hmax j hjn
        · have : j = ⟨n, hlt⟩ := Fin.ext hjn
          subst this
          rw [hsz] at hc
          omega

/-- Result of the scan when the whole array has been visited, best-fit half. -/
theorem pool_scan_best (pool : vk_buffer_pool) (size : Nat) :
    ((pool_scan_loop pool size MAX_VK_BUFFERS).best_i = none →
      ∀ j : Fin MAX_VK_BUFFERS,
        ¬ (0 < (pool j).size ∧ size ≤ (pool j).size ∧ (pool j).size < SIZE_MAX)) ∧
    (∀ i : Fin MAX_VK_BUFFERS, (pool_scan_loop pool size MAX_VK_BUFFERS).best_i = some i →
      0 < (pool i).size ∧ size ≤ (pool i).size ∧
      ∀ j : Fin MAX_VK_BUFFERS, 0 < (pool j).size → size ≤ (pool j).size →
        (pool i).size ≤ (pool j).size) := by
  obtain ⟨hn, hs⟩ := pool_scan_best_inv pool size MAX_VK_BUFFERS (Nat.le_refl _)
  refine ⟨fun h j => (hn h).2 j j.isLt, fun i hi => ?_⟩
  obtain ⟨_, h0, h1, _, hmin⟩ := hs i hi
  exact ⟨h0, h1, fun j => hmin j j.isLt⟩

/-- Result of the scan when the whole array has been visited, worst-fit half. -/
theorem pool_scan_worst (pool : vk_buffer_pool) (size : Nat) :
    ((pool_scan_loop pool size MAX_VK_BUFFERS).worst_i = none →
      ∀ j : Fin MAX_VK_BUFFERS, (pool j).size = 0) ∧
    (∀ i : Fin MAX_VK_BUFFERS, (pool_scan_loop pool size MAX_VK_BUFFERS).worst_i = some i →
      0 < (pool i).size ∧ ∀ j : Fin MAX_VK_BUFFERS, (pool j).size ≤ (pool i).size) := by
  obtain ⟨hn, hs⟩ := pool_scan_worst_inv pool size MAX_VK_BUFFERS (Nat.le_refl _)
  refine ⟨fun h j => (hn h).2 j j.isLt, fun i hi => ?_⟩
  obtain ⟨_, h0, _, hmax⟩ := hs i hi
  exact ⟨h0, fun j => hmax j j.isLt⟩

/-! ## The release loop of `ggml_vk_pool_free` -/

theorem pool_free_loop_succ (buffer : vk_buffer) (pool : vk_buffer_pool) (n : Nat)
    (h : n < MAX_VK_BUFFERS) :
    pool_free_loop buffer pool (n + 1) =
      if (pool_free_loop buffer pool n).returned then pool_free_loop buffer pool n
      else if ((pool_free_loop buffer pool n).pool ⟨n, h⟩).size = 0 then
        { pool := pool_set (pool_free_loop buffer pool n).pool ⟨n, h⟩
            { (pool_free_loop buffer pool n).pool ⟨n, h⟩ with
              buffer := buffer.buffer, size := buffer.size }
          returned := true }
      else pool_free_loop buffer pool n := by
  simp [pool_free_loop, h]

/-- Invariant of the release loop after `n` iterations: either it has not returned, the pool is
untouched and every visited slot is Cached; or it returned at the lowest-index Empty slot, which
now carries the argument's handle and size and its own former allocation token. -/
theorem pool_free_loop_inv (buffer : vk_buffer) (pool : vk_buffer_pool) :
    ∀ n : Nat, n ≤ MAX_VK_BUFFERS →
      ((pool_free_loop buffer pool n).returned = false →
        (pool_free_loop buffer pool n).pool = pool ∧
        ∀ j : Fin MAX_VK_BUFFERS, j.val < n → (pool j).size ≠ 0) ∧
      ((pool_free_loop buffer pool n).returned = true →
        ∃ i : Fin MAX_VK_BUFFERS, i.val < n ∧ (pool i).size = 0 ∧
          (∀ j : Fin MAX_VK_BUFFERS, j.val < i.val → (pool j).size ≠ 0) ∧
          (pool_free_loop buffer pool n).pool =
            pool_set pool i { pool i with buffer := buffer.buffer, size := buffer.size }) := by
  intro n
  induction n with
  | zero =>
    intro _
    refine ⟨fun _ => ⟨rfl, fun j hj => absurd hj (Nat.not_lt_zero _)⟩, fun h => ?_⟩
    simp [pool_free_loop] at h
  | succ n ih =>
    intro hn
    have hlt : n < MAX_VK_BUFFERS := hn
    obtain ⟨ihf, iht⟩ := ih (Nat.le_of_lt hlt)
    rw [pool_free_loop_succ buffer pool n hlt]
    cases hr : (pool_free_loop buffer pool n).returned with
    | true =>
      simp only [if_true]
      refine ⟨fun h => by simp [hr] at h, fun _ => ?_⟩
      obtain ⟨i, hin, hi0, hlow, hp⟩ := iht hr
      exact ⟨i, Nat.lt_succ_of_lt hin, hi0, hlow, hp⟩
    | false =>
      obtain ⟨hp, hfull⟩ := ihf hr
      simp only [Bool.false_eq_true, if_false]
      rw [hp]
      by_cases hz : (pool ⟨n, hlt⟩).size = 0
      · rw [if_pos hz]
        refine ⟨fun h => by simp at h, fun _ => ?_⟩
        exact ⟨⟨n, hlt⟩, Nat.lt_succ_self n, hz, fun j hj => hfull j hj, rfl⟩
      · rw [if_neg hz]
        refine ⟨fun _ => ⟨hp, fun j hj => ?_⟩, fun h => by simp [hr] at h⟩
        rcases Nat.lt_succ_iff_lt_or_eq.mp hj with hjn | hjn
        · exact hfull j hjn
        · have : j = ⟨n, hlt⟩ := Fin.ext hjn
          subst this
          exact hz

/-- Release into a pool that has an Empty slot: the lowest-index Empty slot receives the
argument's handle and size, keeps its own allocation token, nothing else changes and the
allocator is not called. -/
theorem pool_free_stores (pool : vk_buffer_pool) (buffer : vk_buffer)
    (h : ∃ i : Fin MAX_VK_BUFFERS, (pool i).size = 0) :
    ∃ i : Fin MAX_VK_BUFFERS, (pool i).size = 0 ∧
      (∀ j : Fin MAX_VK_BUFFERS, j.val < i.val → (pool j).size ≠ 0) ∧
      (ggml_vk_pool_free pool buffer).pool =
        pool_set pool i { pool i with buffer := buffer.buffer, size := buffer.size } ∧
      (ggml_vk_pool_free pool buffer).calls = [] ∧
      (ggml_vk_pool_free pool buffer).buffer = some buffer := by
  obtain ⟨hf, ht⟩ := pool_free_loop_inv buffer pool MAX_VK_BUFFERS (Nat.le_refl _)
  cases hr : (pool_free_loop buffer pool MAX_VK_BUFFERS).returned with
  | false =>
    obtain ⟨k, hk⟩ := h
    exact absurd hk ((hf hr).2 k k.isLt)
  | true =>
    obtain ⟨i, _, hi0, hlow, hp⟩ := ht hr
    refine ⟨i, hi0, hlow, ?_, ?_, ?_⟩ <;> simp [ggml_vk_pool_free, hr, hp]

/-- Release into a saturated pool: the pool is untouched and the argument is destroyed. -/
theorem pool_free_saturated (pool : vk_buffer_pool) (buffer : vk_buffer)
    (h : ∀ i : Fin MAX_VK_BUFFERS, (pool i).size ≠ 0) :
    (ggml_vk_pool_free pool buffer).pool = pool ∧
    (ggml_vk_pool_free pool buffer).calls =
      [vma_call.vmaDestroyBuffer buffer.buffer buffer.allocation] ∧
    (ggml_vk_pool_free pool buffer).buffer = none := by
  obtain ⟨hf, ht⟩ := pool_free_loop_inv buffer pool MAX_VK_BUFFERS (Nat.le_refl _)
  cases hr : (pool_free_loop buffer pool MAX_VK_BUFFERS).returned with
  | true =>
    obtain ⟨i, _, hi0, _, _⟩ := ht hr
    exact absurd hi0 (h i)
  | false =>
    have hp := (hf hr).1
    refine ⟨?_, ?_, ?_⟩ <;> simp [ggml_vk_pool_free, hr, hp]

/-! ## Acquire -/

/-- On a miss (no candidate found by the best-fit half of the scan) the record the caller's
pointer designates is left exactly as it was. -/
theorem pool_malloc_miss_buf (created : Nat × Nat) (pool : vk_buffer_pool) (size : Nat)
    (buf : vk_buffer) (h : (pool_scan_loop pool size MAX_VK_BUFFERS).best_i = none) :
    (ggml_vk_pool_malloc created pool size buf).buf = buf := by
  unfold ggml_vk_pool_malloc
  simp only [h]
  cases (pool_scan_loop pool size MAX_VK_BUFFERS).worst_i <;> rfl

/-- C1: on the empty pool, `ggml_vk_pool_malloc(100, buf)` with a default-constructed caller
record allocates a new buffer of size 100 into the record made by `new vk_buffer` and leaves the
caller's record untouched: its size is still 0, which is not at least the requested 100. -/
theorem pool_malloc_miss_caller_record_unwritten :
    (ggml_vk_pool_malloc (5, 6) g_vk_buffer_pool_init 100 ⟨0, 0, 0⟩).buf = ⟨0, 0, 0⟩ ∧
    ¬ 100 ≤ (ggml_vk_pool_malloc (5, 6) g_vk_buffer_pool_init 100 ⟨0, 0, 0⟩).buf.size ∧
    (ggml_vk_pool_malloc (5, 6) g_vk_buffer_pool_init 100 ⟨0, 0, 0⟩).new_buf =
      some ⟨5, 6, 100⟩ ∧
    (ggml_vk_pool_malloc (5, 6) g_vk_buffer_pool_init 100 ⟨0, 0, 0⟩).calls =
      [vma_call.vmaCreateBuffer 100] := by
  decide

/-- C2, as stated, fails: the only Cached slot records capacity `SIZE_MAX`, which is at least
the requested size 1, yet the acquire is not a best-fit hit; the slot is evicted and destroyed
and a new buffer is created. -/
theorem pool_malloc_best_fit_size_max_counterexample :
    (∃ i : Fin MAX_VK_BUFFERS, slot_cached (pool_size_max i) ∧ 1 ≤ (pool_size_max i).size) ∧
    ¬ pool_malloc_best_fit_hit (5, 6) pool_size_max 1 ⟨0, 0, 0⟩ ∧
    (ggml_vk_pool_malloc (5, 6) pool_size_max 1 ⟨0, 0, 0⟩).calls =
      [vma_call.vmaDestroyBuffer 7 9, vma_call.vmaCreateBuffer 1] := by
  have hc : (ggml_vk_pool_malloc (5, 6) pool_size_max 1 ⟨0, 0, 0⟩).calls =
      [vma_call.vmaDestroyBuffer 7 9, vma_call.vmaCreateBuffer 1] := by decide
  refine ⟨⟨⟨0, by decide⟩, by decide, by decide⟩, ?_, hc⟩
  rintro ⟨i, _, _, _, _, _, _, hnil⟩
  rw [hc] at hnil
  exact absurd hnil (by decide)

/-- C2, amended: whenever some Cached slot has a capacity that is at least the requested size
and below `SIZE_MAX`, the acquire is a best-fit hit: the caller receives handle, token and
capacity of a Cached slot of minimal capacity among the Cached slots that are large enough, that
slot becomes Empty, every other slot is unchanged, and the allocator is not called. -/
theorem pool_malloc_best_fit (created : Nat × Nat) (pool : vk_buffer_pool) (size : Nat)
    (buf : vk_buffer)
    (h : ∃ i : Fin MAX_VK_BUFFERS,
      slot_cached (pool i) ∧ size ≤ (pool i).size ∧ (pool i).size < SIZE_MAX) :
    pool_malloc_best_fit_hit created pool size buf := by
  obtain ⟨hn, hs⟩ := pool_scan_best pool size
  cases hb : (pool_scan_loop pool size MAX_VK_BUFFERS).best_i with
  | none =>
    obtain ⟨k, hk⟩ := h
    exact absurd hk (hn hb k)
  | some i =>
    obtain ⟨h0, h1, hmin⟩ := hs i hb
    refine ⟨i, h0, h1, fun j hj => hmin j hj, ?_, ?_, ?_, ?_⟩
    · simp [ggml_vk_pool_malloc, hb]
    · simp [ggml_vk_pool_malloc, hb, pool_set]
    · intro j hj
      simp [ggml_vk_pool_malloc, hb, pool_set, hj]
    · simp [ggml_vk_pool_malloc, hb]

/-- C2, instance: with capacities 64, 256 and 1024 cached, `acquire(200)` is a best-fit hit and
hands back the buffer of capacity 256. -/
theorem pool_malloc_best_fit_witness :
    (∃ i : Fin MAX_VK_BUFFERS, slot_cached (pool_64_256_1024 i) ∧
      200 ≤ (pool_64_256_1024 i).size ∧ (pool_64_256_1024 i).size < SIZE_MAX) ∧
    pool_malloc_best_fit_hit (5, 6) pool_64_256_1024 200 ⟨0, 0, 0⟩ ∧
    (ggml_vk_pool_malloc (5, 6) pool_64_256_1024 200 ⟨0, 0, 0⟩).buf = ⟨2, 12, 256⟩ :=
  ⟨⟨⟨1, by decide⟩, by decide, by decide, by decide⟩,
   pool_malloc_best_fit (5, 6) pool_64_256_1024 200 ⟨0, 0, 0⟩
     ⟨⟨1, by decide⟩, by decide, by decide, by decide⟩,
   by decide⟩

/-- C3: when no Cached slot is large enough but some slot is Cached, the acquire calls
`vmaDestroyBuffer` exactly once, on the handle and token of a Cached slot of maximal capacity,
then `vmaCreateBuffer`; that slot becomes Empty (only its size changes), every other slot is
unchanged, the new buffer lives in the record made by `new vk_buffer`, and every slot that is
Cached afterwards is an unchanged slot of the old pool, so the new buffer entered no slot. -/
theorem pool_malloc_worst_fit_eviction (created : Nat × Nat) (pool : vk_buffer_pool)
    (size : Nat) (buf : vk_buffer)
    (hno : ∀ j : Fin MAX_VK_BUFFERS, slot_cached (pool j) → (pool j).size < size)
    (hsome : ∃ j : Fin MAX_VK_BUFFERS, slot_cached (pool j)) :
    ∃ w : Fin MAX_VK_BUFFERS,
      slot_cached (pool w) ∧
      (∀ j : Fin MAX_VK_BUFFERS, slot_cached (pool j) → (pool j).size ≤ (pool w).size) ∧
      (ggml_vk_pool_malloc created pool size buf).calls =
        [vma_call.vmaDestroyBuffer (pool w).buffer (pool w).allocation,
         vma_call.vmaCreateBuffer size] ∧
      (ggml_vk_pool_malloc created pool size buf).pool w = { pool w with size := 0 } ∧
      (∀ j : Fin MAX_VK_BUFFERS, j ≠ w →
        (ggml_vk_pool_malloc created pool size buf).pool j = pool j) ∧
      (ggml_vk_pool_malloc created pool size buf).new_buf =
        some ⟨created.1, created.2, size⟩ ∧
      (∀ j : Fin MAX_VK_BUFFERS,
        slot_cached ((ggml_vk_pool_malloc created pool size buf).pool j) →
        (ggml_vk_pool_malloc created pool size buf).pool j = pool j) := by
  have hb : (pool_scan_loop pool size MAX_VK_BUFFERS).best_i = none := by
    cases hb : (pool_scan_loop pool size MAX_VK_BUFFERS).best_i with
    | none => rfl
    | some i =>
      obtain ⟨h0, h1, _⟩ := (pool_scan_best pool size).2 i hb
      have := hno i h0
      omega
  cases hw : (pool_scan_loop pool size MAX_VK_BUFFERS).worst_i with
  | none =>
    obtain ⟨k, hk⟩ := hsome
    have := (pool_scan_worst pool size).1 hw k
    unfold slot_cached at hk
    omega
  | some w =>
    obtain ⟨h0, hmax⟩ := (pool_scan_worst pool size).2 w hw
    have hpool : (ggml_vk_pool_malloc created pool size buf).pool =
        pool_set pool w { pool w with size := 0 } := by
      simp [ggml_vk_pool_malloc, hb, hw]
    refine ⟨w, h0, fun j _ => hmax j, ?_, ?_, ?_, ?_, ?_⟩
    · simp [ggml_vk_pool_malloc, hb, hw]
    · rw [hpool, pool_set_same]
    · intro j hj
      rw [hpool, pool_set_other _ _ _ _ hj]
    · simp [ggml_vk_pool_malloc, hb, hw]
    · intro j hj
      rw [hpool] at hj ⊢
      by_cases hjw : j = w
      · subst hjw
        rw [pool_set_same] at hj
        exact absurd hj (by simp [slot_cached])
      · rw [pool_set_other _ _ _ _ hjw]

/-- C3, instance: with capacities 64, 128 and 512 cached, `acquire(600)` destroys the buffer of
capacity 512 (handle 3, token 13) and empties its slot; the slots of 64 and 128 stay Cached. -/
theorem pool_malloc_worst_fit_eviction_witness :
    (∀ j : Fin MAX_VK_BUFFERS, slot_cached (pool_64_128_512 j) →
      (pool_64_128_512 j).size < 600) ∧
    (∃ j : Fin MAX_VK_BUFFERS, slot_cached (pool_64_128_512 j)) ∧
    (∃ w : Fin MAX_VK_BUFFERS,
      slot_cached (pool_64_128_512 w) ∧
      (∀ j : Fin MAX_VK_BUFFERS, slot_cached (pool_64_128_512 j) →
        (pool_64_128_512 j).size ≤ (pool_64_128_512 w).size) ∧
      (ggml_vk_pool_malloc (5, 6) pool_64_128_512 600 ⟨0, 0, 0⟩).calls =
        [vma_call.vmaDestroyBuffer (pool_64_128_512 w).buffer (pool_64_128_512 w).allocation,
         vma_call.vmaCreateBuffer 600] ∧
      (ggml_vk_pool_malloc (5, 6) pool_64_128_512 600 ⟨0, 0, 0⟩).pool w =
        { pool_64_128_512 w with size := 0 } ∧
      (∀ j : Fin MAX_VK_BUFFERS, j ≠ w →
        (ggml_vk_pool_malloc (5, 6) pool_64_128_512 600 ⟨0, 0, 0⟩).pool j =
          pool_64_128_512 j) ∧
      (ggml_vk_pool_malloc (5, 6) pool_64_128_512 600 ⟨0, 0, 0⟩).new_buf =
        some ⟨5, 6, 600⟩ ∧
      (∀ j : Fin MAX_VK_BUFFERS,
        slot_cached ((ggml_vk_pool_malloc (5, 6) pool_64_128_512 600 ⟨0, 0, 0⟩).pool j) →
        (ggml_vk_pool_malloc (5, 6) pool_64_128_512 600 ⟨0, 0, 0⟩).pool j =
          pool_64_128_512 j)) ∧
    (ggml_vk_pool_malloc (5, 6) pool_64_128_512 600 ⟨0, 0, 0⟩).calls =
      [vma_call.vmaDestroyBuffer 3 13, vma_call.vmaCreateBuffer 600] :=
  ⟨by decide, ⟨⟨0, by decide⟩, by decide⟩,
   pool_malloc_worst_fit_eviction (5, 6) pool_64_128_512 600 ⟨0, 0, 0⟩ (by decide)
     ⟨⟨0, by decide⟩, by decide⟩,
   by decide⟩

/-! ## Release -/

/-- C4: on the empty pool, `ggml_vk_pool_free` of the record with handle 7, token 9 and
capacity 64 stores handle and capacity in slot 0 without calling the allocator, but not the
token: the slot keeps its former (null) token, so the following `ggml_vk_pool_malloc(64, ...)`,
which selects that slot, hands back handle 7 and capacity 64 with token 0 instead of 9. -/
theorem pool_free_drops_allocation_token :
    (ggml_vk_pool_free g_vk_buffer_pool_init ⟨7, 9, 64⟩).pool ⟨0, by decide⟩ = ⟨7, 0, 64⟩ ∧
    (ggml_vk_pool_free g_vk_buffer_pool_init ⟨7, 9, 64⟩).calls = [] ∧
    (ggml_vk_pool_malloc (5, 6) (ggml_vk_pool_free g_vk_buffer_pool_init ⟨7, 9, 64⟩).pool 64
      ⟨0, 0, 0⟩).buf = ⟨7, 0, 64⟩ ∧
    (ggml_vk_pool_malloc (5, 6) (ggml_vk_pool_free g_vk_buffer_pool_init ⟨7, 9, 64⟩).pool 64
      ⟨0, 0, 0⟩).buf.allocation ≠ 9 := by
  decide

/-- C5: when every slot is Cached, `ggml_vk_pool_free(b)` leaves every slot unchanged and makes
exactly one allocator call, `vmaDestroyBuffer` on the handle and token of `b`. -/
theorem pool_free_saturated_destroys (pool : vk_buffer_pool) (b : vk_buffer)
    (h : ∀ i : Fin MAX_VK_BUFFERS, slot_cached (pool i)) :
    (∀ i : Fin MAX_VK_BUFFERS, (ggml_vk_pool_free pool b).pool i = pool i) ∧
    (ggml_vk_pool_free pool b).calls = [vma_call.vmaDestroyBuffer b.buffer b.allocation] := by
  have hne : ∀ i : Fin MAX_VK_BUFFERS, (pool i).size ≠ 0 := fun i =>
    Nat.pos_iff_ne_zero.mp (h i)
  obtain ⟨hp, hc, _⟩ := pool_free_saturated pool b hne
  exact ⟨fun i => by rw [hp], hc⟩

/-- C5, instance: releasing the record with handle 5000, token 6000 and capacity 16 into the
saturated pool destroys it and changes no slot. -/
theorem pool_free_saturated_destroys_witness :
    (∀ i : Fin MAX_VK_BUFFERS, slot_cached (pool_saturated i)) ∧
    (∀ i : Fin MAX_VK_BUFFERS,
      (ggml_vk_pool_free pool_saturated ⟨5000, 6000, 16⟩).pool i = pool_saturated i) ∧
    (ggml_vk_pool_free pool_saturated ⟨5000, 6000, 16⟩).calls =
      [vma_call.vmaDestroyBuffer 5000 6000] :=
  ⟨by decide, pool_free_saturated_destroys pool_saturated ⟨5000, 6000, 16⟩ (by decide)⟩

/-- C6, as stated, fails: releasing a record of capacity 0 into the empty pool leaves every
slot Empty and calls the allocator not at all, so the record is neither cached nor destroyed. -/
theorem pool_free_zero_capacity_counterexample :
    (∀ i : Fin MAX_VK_BUFFERS,
      ¬ slot_cached ((ggml_vk_pool_free g_vk_buffer_pool_init ⟨7, 9, 0⟩).pool i)) ∧
    (ggml_vk_pool_free g_vk_buffer_pool_init ⟨7, 9, 0⟩).calls = [] ∧
    ¬ pool_free_keeps_or_destroys g_vk_buffer_pool_init ⟨7, 9, 0⟩ := by
  obtain ⟨i, _, _, hp, hc, _⟩ :=
    pool_free_stores g_vk_buffer_pool_init ⟨7, 9, 0⟩ ⟨⟨0, by decide⟩, rfl⟩
  have hall : ∀ j : Fin MAX_VK_BUFFERS,
      ((ggml_vk_pool_free g_vk_buffer_pool_init ⟨7, 9, 0⟩).pool j).size = 0 := by
    intro j
    rw [hp]
    by_cases hj : j = i
    · subst hj
      rw [pool_set_same]
    · rw [pool_set_other _ _ _ _ hj]
      rfl
  refine ⟨fun j hj => ?_, hc, ?_⟩
  · unfold slot_cached at hj
    rw [hall j] at hj
    exact absurd hj (Nat.lt_irrefl 0)
  · rintro (⟨j, hj, _, _⟩ | hd)
    · unfold slot_cached at hj
      rw [hall j] at hj
      exact absurd hj (Nat.lt_irrefl 0)
    · rw [hc] at hd
      exact absurd hd (List.not_mem_nil _)

/-- C6, amended: for every pool and every record `b` of positive capacity, after
`ggml_vk_pool_free(b)` either some Cached slot carries the handle and the capacity of `b`, or
`b` has been handed to `vmaDestroyBuffer`. -/
theorem pool_free_positive_keeps_or_destroys (pool : vk_buffer_pool) (b : vk_buffer)
    (hb : 0 < b.size) : pool_free_keeps_or_destroys pool b := by
  by_cases h : ∃ i : Fin MAX_VK_BUFFERS, (pool i).size = 0
  · obtain ⟨i, _, _, hp, _, _⟩ := pool_free_stores pool b h
    refine Or.inl ⟨i, ?_, ?_, ?_⟩
    · rw [hp, pool_set_same]
      exact hb
    · rw [hp, pool_set_same]
    · rw [hp, pool_set_same]
  · have hne : ∀ i : Fin MAX_VK_BUFFERS, (pool i).size ≠ 0 := fun i hi => h ⟨i, hi⟩
    obtain ⟨_, hc, _⟩ := pool_free_saturated pool b hne
    refine Or.inr ?_
    rw [hc]
    exact List.mem_singleton.mpr rfl

/-- C6, instance: a record of capacity 64 released into the pool caching 64, 128 and 512. -/
theorem pool_free_positive_keeps_or_destroys_witness :
    0 < (⟨7, 9, 64⟩ : vk_buffer).size ∧
    pool_free_keeps_or_destroys pool_64_128_512 ⟨7, 9, 64⟩ :=
  ⟨by decide, pool_free_positive_keeps_or_destroys pool_64_128_512 ⟨7, 9, 64⟩ (by decide)⟩

/-! ## Sequences of calls -/

/-- C7: starting from the all-Empty pool, after any finite sequence of `ggml_vk_pool_malloc`
and `ggml_vk_pool_free` calls the number of Cached slots is at most `MAX_VK_BUFFERS`. -/
theorem pool_run_cached_count_le (ops : List pool_op) :
    cached_count (pool_run g_vk_buffer_pool_init ops) ≤ MAX_VK_BUFFERS := by
  unfold cached_count
  calc (List.finRange MAX_VK_BUFFERS).countP
        (fun i => decide (slot_cached (pool_run g_vk_buffer_pool_init ops i)))
      ≤ (List.finRange MAX_VK_BUFFERS).length := List.countP_le_length _
    _ = MAX_VK_BUFFERS := List.length_finRange _

/-! ## Host-to-device staging -/

theorem u64_of_lt (n : Nat) (h : n < 2 ^ 64) : u64 n = n :=
  Nat.mod_eq_of_lt h

/-- C8: for the 2 x 2 tensor of 4-byte elements with contiguous rows 16 bytes apart
(`nb0 = ts`, `nb1 = 16`, packed row 8), staged at offset 0 into zeroed memory, every iteration
of the row loop reads the same 8 source bytes at `x + 8` and writes them at destination offset
`2 * i1`.  The destination therefore starts with source bytes 8, 9, 8, 9, 10, ... (values
9, 10, 9, 10, 11, ...), whereas row `i1` of the source, read at `i1 * nb1` and expected at
destination offset `i1 * 8`, has the values 1..8 and 17..24. -/
theorem h2d_row_case_misplaces_rows :
    (tensor_row_padded.nb0 = type_size_4 tensor_row_padded.type ∧
      tensor_row_padded.nb1 ≠
        type_size_4 tensor_row_padded.type * tensor_row_padded.ne0 /
          blck_size_1 tensor_row_padded.type) ∧
    (List.range 16).map
        (ggml_vk_h2d_tensor_2d type_size_4 blck_size_1 ⟨1, 11, 64⟩ zero_mem 0
          tensor_row_padded 0 0).dst_mem =
      [9, 10, 9, 10, 11, 12, 13, 14, 15, 16, 0, 0, 0, 0, 0, 0] ∧
    (List.range 16).map (fun k => tensor_row_padded.data (k / 8 * 16 + k % 8)) =
      [1, 2, 3, 4, 5, 6, 7, 8, 17, 18, 19, 20, 21, 22, 23, 24] := by
  decide

/-- C9: for the 2 x 2 tensor of 4-byte elements placed 8 bytes apart (`nb0 = 8`, not `ts`),
staged at offset 0 into zeroed memory, the element loop assigns a single byte per element: the
destination holds the first byte of each element at its packed position and is untouched
elsewhere, whereas the four bytes of element `(i1, i0)`, read at `i1 * nb1 + i0 * nb0`, have the
values 1..4, 9..12, 17..20 and 25..28. -/
theorem h2d_strided_case_copies_one_byte :
    tensor_strided.nb0 ≠ type_size_4 tensor_strided.type ∧
    (List.range 16).map
        (ggml_vk_h2d_tensor_2d type_size_4 blck_size_1 ⟨1, 11, 64⟩ zero_mem 0
          tensor_strided 0 0).dst_mem =
      [1, 0, 0, 0, 9, 0, 0, 0, 17, 0, 0, 0, 25, 0, 0, 0] ∧
    (List.range 16).map
        (fun k => tensor_strided.data (k / 8 * 16 + k % 8 / 4 * 8 + k % 4)) =
      [1, 2, 3, 4, 9, 10, 11, 12, 17, 18, 19, 20, 25, 26, 27, 28] := by
  decide

/-- C10: for a tensor in the fully packed layout (`nb0 = ts` and `nb1 = ts*ne0/bs`) whose
packed row size, slice length `ne1*nb1` and slice offset `i2*nb2 + i3*nb3` are representable
in 64 bits, `ggml_vk_h2d_tensor_2d` copies the `ne1*nb1` bytes that start at source offset
`i2*nb2 + i3*nb3` to destination bytes `[offset, offset + ne1*nb1)`, leaves every other
destination byte unchanged, and maps and unmaps the destination allocation exactly once. -/
theorem h2d_packed_case (ggml_type_size ggml_blck_size : ggml_type → Nat)
    (dst : vk_buffer) (dst_mem : memory) (offset : Nat) (src : ggml_tensor) (i3 i2 : Nat)
    (hnb0 : src.nb0 = ggml_type_size src.type)
    (hnb1 : src.nb1 = ggml_type_size src.type * src.ne0 / ggml_blck_size src.type)
    (hrow : ggml_type_size src.type * src.ne0 < 2 ^ 64)
    (hlen : src.ne1 * src.nb1 < 2 ^ 64)
    (hoff : i2 * src.nb2 + i3 * src.nb3 < 2 ^ 64) :
    (∀ k : Nat, k < src.ne1 * src.nb1 →
      (ggml_vk_h2d_tensor_2d ggml_type_size ggml_blck_size dst dst_mem offset src i3 i2).dst_mem
          (offset + k) = src.data (i2 * src.nb2 + i3 * src.nb3 + k)) ∧
    (∀ a : Nat, a < offset ∨ offset + src.ne1 * src.nb1 ≤ a →
      (ggml_vk_h2d_tensor_2d ggml_type_size ggml_blck_size dst dst_mem offset src i3 i2).dst_mem
          a = dst_mem a) ∧
    (ggml_vk_h2d_tensor_2d ggml_type_size ggml_blck_size dst dst_mem offset src i3 i2).calls =
      [vma_call.vmaMapMemory dst.allocation, vma_call.vmaUnmapMemory dst.allocation] := by
  have hcond : src.nb0 = ggml_type_size src.type ∧
      src.nb1 = u64 (ggml_type_size src.type * src.ne0) / ggml_blck_size src.type := by
    rw [u64_of_lt _ hrow]
    exact ⟨hnb0, hnb1⟩
  have h2 : u64 (i2 * src.nb2) = i2 * src.nb2 := u64_of_lt _ (by omega)
  have h3 : u64 (i3 * src.nb3) = i3 * src.nb3 := u64_of_lt _ (by omega)
  have hr : ggml_vk_h2d_tensor_2d ggml_type_size ggml_blck_size dst dst_mem offset src i3 i2 =
      { dst_mem := memcpy dst_mem offset
          (fun k => src.data (i2 * src.nb2 + i3 * src.nb3 + k)) 0 (src.ne1 * src.nb1)
        calls := [vma_call.vmaMapMemory dst.allocation,
                  vma_call.vmaUnmapMemory dst.allocation] } := by
    unfold ggml_vk_h2d_tensor_2d
    simp only [if_pos hcond, h2, h3, u64_of_lt _ hlen]
  rw [hr]
  refine ⟨fun k hk => ?_, fun a ha => ?_, rfl⟩
  · have hin : offset ≤ offset + k ∧ offset + k < offset + src.ne1 * src.nb1 := by omega
    simp only [memcpy, if_pos hin]
    congr 1
    omega
  · have hout : ¬ (offset ≤ a ∧ a < offset + src.ne1 * src.nb1) := by omega
    simp only [memcpy, if_neg hout]

/-- C10, instance: batch slice `i2 = 1`, `i3 = 0` of the packed 2 x 3 x 2 tensor of 4-byte
elements, staged at offset 5: the 24 bytes at source offset 24 land at destination bytes
5..28, with the values 25..48. -/
theorem h2d_packed_case_witness :
    (tensor_packed.nb0 = type_size_4 tensor_packed.type ∧
      tensor_packed.nb1 =
        type_size_4 tensor_packed.type * tensor_packed.ne0 / blck_size_1 tensor_packed.type ∧
      type_size_4 tensor_packed.type * tensor_packed.ne0 < 2 ^ 64 ∧
      tensor_packed.ne1 * tensor_packed.nb1 < 2 ^ 64 ∧
      1 * tensor_packed.nb2 + 0 * tensor_packed.nb3 < 2 ^ 64) ∧
    ((∀ k : Nat, k < tensor_packed.ne1 * tensor_packed.nb1 →
      (ggml_vk_h2d_tensor_2d type_size_4 blck_size_1 ⟨1, 11, 64⟩ zero_mem 5
          tensor_packed 0 1).dst_mem (5 + k) =
        tensor_packed.data (1 * tensor_packed.nb2 + 0 * tensor_packed.nb3 + k)) ∧
    (∀ a : Nat, a < 5 ∨ 5 + tensor_packed.ne1 * tensor_packed.nb1 ≤ a →
      (ggml_vk_h2d_tensor_2d type_size_4 blck_size_1 ⟨1, 11, 64⟩ zero_mem 5
          tensor_packed 0 1).dst_mem a = zero_mem a) ∧
    (ggml_vk_h2d_tensor_2d type_size_4 blck_size_1 ⟨1, 11, 64⟩ zero_mem 5
        tensor_packed 0 1).calls =
      [vma_call.vmaMapMemory 11, vma_call.vmaUnmapMemory 11]) ∧
    (List.range 32).map
        (ggml_vk_h2d_tensor_2d type_size_4 blck_size_1 ⟨1, 11, 64⟩ zero_mem 5
          tensor_packed 0 1).dst_mem =
      [0, 0, 0, 0, 0, 25, 26, 27, 28, 29, 30, 31, 32, 33, 34, 35, 36, 37, 38, 39, 40,
       41, 42, 43, 44, 45, 46, 47, 48, 0, 0, 0] :=
  ⟨by decide,
   h2d_packed_case type_size_4 blck_size_1 ⟨1, 11, 64⟩ zero_mem 5 tensor_packed 0 1
     (by decide) (by decide) (by decide) (by decide) (by decide),
   by decide⟩

/-! ## Eligibility and precision selection -/

/-- C11: `ggml_vk_can_mul_mat` returns true exactly when src0 is F32, F16 or quantized, src1 and
dst are F32, and either `dst.ne0`, `dst.ne1` and `src1.ne0` are all at least 32 or src0 is
device-resident; for F32/F32/F32 tensors with these three extents below 32 the result is
`src0 is device-resident`. -/
theorem can_mul_mat_iff (env : ggml_env) (src0 src1 dst : ggml_tensor) :
    (ggml_vk_can_mul_mat env src0 src1 dst = true ↔
      (src0.type = GGML_TYPE_F32 ∨ src0.type = GGML_TYPE_F16 ∨
        env.ggml_is_quantized src0.type = true) ∧
      src1.type = GGML_TYPE_F32 ∧
      dst.type = GGML_TYPE_F32 ∧
      ((32 ≤ dst.ne0 ∧ 32 ≤ dst.ne1 ∧ 32 ≤ src1.ne0) ∨
        src0.backend = ggml_backend.GGML_BACKEND_GPU)) ∧
    (src0.type = GGML_TYPE_F32 → src1.type = GGML_TYPE_F32 → dst.type = GGML_TYPE_F32 →
      dst.ne0 < 32 → dst.ne1 < 32 → src1.ne0 < 32 →
      ggml_vk_can_mul_mat env src0 src1 dst =
        decide (src0.backend = ggml_backend.GGML_BACKEND_GPU)) := by
  constructor
  · unfold ggml_vk_can_mul_mat
    simp only [ge_iff_le]
    split_ifs with h
    · simp only [true_iff]
      exact h
    · simp only [Bool.false_eq_true, false_iff]
      exact h
  · intro h0 h1 hd hne0 _ _
    unfold ggml_vk_can_mul_mat
    simp only [ge_iff_le]
    by_cases hg : src0.backend = ggml_backend.GGML_BACKEND_GPU
    · rw [if_pos ⟨Or.inl h0, h1, hd, Or.inr hg⟩]
      simp [hg]
    · have hn : ¬ ((src0.type = GGML_TYPE_F32 ∨ src0.type = GGML_TYPE_F16 ∨
            env.ggml_is_quantized src0.type = true) ∧
          src1.type = GGML_TYPE_F32 ∧ dst.type = GGML_TYPE_F32 ∧
          ((32 ≤ dst.ne0 ∧ 32 ≤ dst.ne1 ∧ 32 ≤ src1.ne0) ∨
            src0.backend = ggml_backend.GGML_BACKEND_GPU)) := by
        rintro ⟨_, _, _, ⟨h32, _, _⟩ | hgpu⟩
        · omega
        · exact hg hgpu
      rw [if_neg hn]
      simp [hg]

/-- C11, instance: F32 tensors with every extent 16 are not eligible when src0 is
host-resident and eligible when src0 is device-resident. -/
theorem can_mul_mat_iff_witness :
    ggml_vk_can_mul_mat (env_tables false)
        (packed_tensor GGML_TYPE_F32 ggml_backend.GGML_BACKEND_CPU 16 16 1 1)
        (packed_tensor GGML_TYPE_F32 ggml_backend.GGML_BACKEND_CPU 16 16 1 1)
        (packed_tensor GGML_TYPE_F32 ggml_backend.GGML_BACKEND_CPU 16 16 1 1) =
      decide (ggml_backend.GGML_BACKEND_CPU = ggml_backend.GGML_BACKEND_GPU) ∧
    ggml_vk_can_mul_mat (env_tables false)
        (packed_tensor GGML_TYPE_F32 ggml_backend.GGML_BACKEND_CPU 16 16 1 1)
        (packed_tensor GGML_TYPE_F32 ggml_backend.GGML_BACKEND_CPU 16 16 1 1)
        (packed_tensor GGML_TYPE_F32 ggml_backend.GGML_BACKEND_CPU 16 16 1 1) = false ∧
    ggml_vk_can_mul_mat (env_tables false)
        (packed_tensor GGML_TYPE_F32 ggml_backend.GGML_BACKEND_GPU 16 16 1 1)
        (packed_tensor GGML_TYPE_F32 ggml_backend.GGML_BACKEND_CPU 16 16 1 1)
        (packed_tensor GGML_TYPE_F32 ggml_backend.GGML_BACKEND_CPU 16 16 1 1) = true :=
  ⟨(can_mul_mat_iff (env_tables false)
      (packed_tensor GGML_TYPE_F32 ggml_backend.GGML_BACKEND_CPU 16 16 1 1)
      (packed_tensor GGML_TYPE_F32 ggml_backend.GGML_BACKEND_CPU 16 16 1 1)
      (packed_tensor GGML_TYPE_F32 ggml_backend.GGML_BACKEND_CPU 16 16 1 1)).2
      rfl rfl rfl (by decide) (by decide) (by decide),
   by decide, by decide⟩

theorem u64_add_u64 (a b : Nat) : u64 (a + u64 b) = u64 (a + b) := by
  unfold u64
  exact Nat.add_mod_mod a b (2 ^ 64)

/-- C12: `ggml_vk_mul_mat_use_f16` returns false without half-precision support; with it, it
returns true exactly when `bytes(src0) + 2*element_count(src1) < bytes(src0) + bytes(src1)`,
both sums reduced to 64-bit machine words. -/
theorem mul_mat_use_f16_spec (env : ggml_env) (src0 src1 : ggml_tensor) :
    (env.vk_fp16_support = false → ggml_vk_mul_mat_use_f16 env src0 src1 = false) ∧
    (env.vk_fp16_support = true →
      (ggml_vk_mul_mat_use_f16 env src0 src1 = true ↔
        u64 (env.ggml_nbytes src0 + 2 * env.ggml_nelements src1) <
          u64 (env.ggml_nbytes src0 + env.ggml_nbytes src1))) := by
  constructor
  · intro h
    simp [ggml_vk_mul_mat_use_f16, h]
  · intro h
    simp [ggml_vk_mul_mat_use_f16, h, u64_add_u64, sizeof_ggml_fp16_t]

/-- C12, instance: with half-precision support, `bytes(src0) = 1,000,000`,
`element_count(src1) = 100,000` and `bytes(src1) = 400,000` give true. -/
theorem mul_mat_use_f16_spec_witness :
    (env_tables true).vk_fp16_support = true ∧
    (env_tables true).ggml_nbytes
      (packed_tensor GGML_TYPE_F16 ggml_backend.GGML_BACKEND_CPU 1000 500 1 1) = 1000000 ∧
    (env_tables true).ggml_nelements
      (packed_tensor GGML_TYPE_F32 ggml_backend.GGML_BACKEND_CPU 1000 100 1 1) = 100000 ∧
    (env_tables true).ggml_nbytes
      (packed_tensor GGML_TYPE_F32 ggml_backend.GGML_BACKEND_CPU 1000 100 1 1) = 400000 ∧
    ggml_vk_mul_mat_use_f16 (env_tables true)
      (packed_tensor GGML_TYPE_F16 ggml_backend.GGML_BACKEND_CPU 1000 500 1 1)
      (packed_tensor GGML_TYPE_F32 ggml_backend.GGML_BACKEND_CPU 1000 100 1 1) = true ∧
    ggml_vk_mul_mat_use_f16 (env_tables false)
      (packed_tensor GGML_TYPE_F16 ggml_backend.GGML_BACKEND_CPU 1000 500 1 1)
      (packed_tensor GGML_TYPE_F32 ggml_backend.GGML_BACKEND_CPU 1000 100 1 1) = false :=
  ⟨rfl, by decide, by decide, by decide,
   ((mul_mat_use_f16_spec (env_tables true)
      (packed_tensor GGML_TYPE_F16 ggml_backend.GGML_BACKEND_CPU 1000 500 1 1)
      (packed_tensor GGML_TYPE_F32 ggml_backend.GGML_BACKEND_CPU 1000 100 1 1)).2 rfl).2
      (by decide),
   (mul_mat_use_f16_spec (env_tables false)
      (packed_tensor GGML_TYPE_F16 ggml_backend.GGML_BACKEND_CPU 1000 500 1 1)
      (packed_tensor GGML_TYPE_F32 ggml_backend.GGML_BACKEND_CPU 1000 100 1 1)).1 rfl⟩

/-- C20: when none of the four sums `bytes(src0) + bytes(src1)`,
`bytes(src0) + 2*element_count(src1)` and the same two for a second weight tensor overflows
64 bits, `ggml_vk_mul_mat_use_f16` gives the same answer for both weight tensors, and with
half-precision support that answer is `2*element_count(src1) < bytes(src1)`. -/
theorem mul_mat_use_f16_independent_of_src0 (env : ggml_env) (src0 src0' src1 : ggml_tensor)
    (h1 : env.ggml_nbytes src0 + env.ggml_nbytes src1 < 2 ^ 64)
    (h2 : env.ggml_nbytes src0 + 2 * env.ggml_nelements src1 < 2 ^ 64)
    (h3 : env.ggml_nbytes src0' + env.ggml_nbytes src1 < 2 ^ 64)
    (h4 : env.ggml_nbytes src0' + 2 * env.ggml_nelements src1 < 2 ^ 64) :
    ggml_vk_mul_mat_use_f16 env src0 src1 = ggml_vk_mul_mat_use_f16 env src0' src1 ∧
    (env.vk_fp16_support = true →
      ggml_vk_mul_mat_use_f16 env src0 src1 =
        decide (2 * env.ggml_nelements src1 < env.ggml_nbytes src1)) := by
  have key : ∀ s : ggml_tensor,
      env.ggml_nbytes s + env.ggml_nbytes src1 < 2 ^ 64 →
      env.ggml_nbytes s + 2 * env.ggml_nelements src1 < 2 ^ 64 →
      env.vk_fp16_support = true →
      ggml_vk_mul_mat_use_f16 env s src1 =
        decide (2 * env.ggml_nelements src1 < env.ggml_nbytes src1) := by
    intro s ha hb hf
    simp only [ggml_vk_mul_mat_use_f16, hf, u64_add_u64, sizeof_ggml_fp16_t,
      u64_of_lt _ ha, u64_of_lt _ hb, Bool.true_eq_false, if_false]
    congr 1
    apply propext
    omega
  refine ⟨?_, key src0 h1 h2⟩
  cases hf : env.vk_fp16_support with
  | false => simp [ggml_vk_mul_mat_use_f16, hf]
  | true => rw [key src0 h1 h2 hf, key src0' h3 h4 hf]

/-- C20, instance: an F16 weight tensor of 1,000,000 bytes and an F32 weight tensor of
1,000,000 bytes against the same activations of 100,000 elements and 400,000 bytes. -/
theorem mul_mat_use_f16_independent_of_src0_witness :
    ggml_vk_mul_mat_use_f16 (env_tables true)
        (packed_tensor GGML_TYPE_F16 ggml_backend.GGML_BACKEND_CPU 1000 500 1 1)
        (packed_tensor GGML_TYPE_F32 ggml_backend.GGML_BACKEND_CPU 1000 100 1 1) =
      ggml_vk_mul_mat_use_f16 (env_tables true)
        (packed_tensor GGML_TYPE_F32 ggml_backend.GGML_BACKEND_CPU 1000 250 1 1)
        (packed_tensor GGML_TYPE_F32 ggml_backend.GGML_BACKEND_CPU 1000 100 1 1) ∧
    ggml_vk_mul_mat_use_f16 (env_tables true)
        (packed_tensor GGML_TYPE_F16 ggml_backend.GGML_BACKEND_CPU 1000 500 1 1)
        (packed_tensor GGML_TYPE_F32 ggml_backend.GGML_BACKEND_CPU 1000 100 1 1) =
      decide (2 * (env_tables true).ggml_nelements
          (packed_tensor GGML_TYPE_F32 ggml_backend.GGML_BACKEND_CPU 1000 100 1 1) <
        (env_tables true).ggml_nbytes
          (packed_tensor GGML_TYPE_F32 ggml_backend.GGML_BACKEND_CPU 1000 100 1 1)) :=
  ⟨(mul_mat_use_f16_independent_of_src0 (env_tables true)
      (packed_tensor GGML_TYPE_F16 ggml_backend.GGML_BACKEND_CPU 1000 500 1 1)
      (packed_tensor GGML_TYPE_F32 ggml_backend.GGML_BACKEND_CPU 1000 250 1 1)
      (packed_tensor GGML_TYPE_F32 ggml_backend.GGML_BACKEND_CPU 1000 100 1 1)
      (by decide) (by decide) (by decide) (by decide)).1,
   (mul_mat_use_f16_independent_of_src0 (env_tables true)
      (packed_tensor GGML_TYPE_F16 ggml_backend.GGML_BACKEND_CPU 1000 500 1 1)
      (packed_tensor GGML_TYPE_F32 ggml_backend.GGML_BACKEND_CPU 1000 250 1 1)
      (packed_tensor GGML_TYPE_F32 ggml_backend.GGML_BACKEND_CPU 1000 100 1 1)
      (by decide) (by decide) (by decide) (by decide)).2 rfl⟩

/-! ## Dispatch -/

theorem can_mul_mat_type (env : ggml_env) (src0 src1 dst : ggml_tensor)
    (h : ggml_vk_can_mul_mat env src0 src1 dst = true) :
    src0.type = GGML_TYPE_F32 ∨ src0.type = GGML_TYPE_F16 ∨
      env.ggml_is_quantized src0.type = true := by
  unfold ggml_vk_can_mul_mat at h
  simp only [ge_iff_le] at h
  split_ifs at h with hc
  exact hc.1

theorem mul_mat_use_f16_flag_off (env : ggml_env) (src0 src1 : ggml_tensor)
    (hflag : env.vk_fp16_support = vk_fp16_support) :
    ggml_vk_mul_mat_use_f16 env src0 src1 = false := by
  unfold vk_fp16_support at hflag
  simp [ggml_vk_mul_mat_use_f16, hflag]

/-- C14: whenever `ggml_vk_mul_mat` selects the half-precision branch (element count of src1
within the `int64_t` range), `ggml_vk_mul_mat_get_wsize` returns `2*element_count(src1)`; and
with the half-precision flag as the source has it (initialised to false and never assigned),
`ggml_vk_mul_mat` never selects that branch and `ggml_vk_mul_mat_get_wsize` returns 0, in
particular for every input on which the direct-float or the quantized path is run. -/
theorem mul_mat_get_wsize_spec (env : ggml_env) (src0 src1 dst : ggml_tensor) :
    (env.ggml_nelements src1 < 2 ^ 63 →
      ggml_vk_mul_mat env src0 src1 dst = mul_mat_result.f16_branch_nothing_run →
      ggml_vk_mul_mat_get_wsize env src0 src1 = 2 * env.ggml_nelements src1) ∧
    (env.vk_fp16_support = vk_fp16_support →
      ggml_vk_mul_mat env src0 src1 dst ≠ mul_mat_result.f16_branch_nothing_run ∧
      ggml_vk_mul_mat_get_wsize env src0 src1 = 0 ∧
      ((ggml_vk_mul_mat env src0 src1 dst).ran_one_path = true →
        ggml_vk_mul_mat_get_wsize env src0 src1 = 0)) := by
  constructor
  · intro hn h
    have hu : ggml_vk_mul_mat_use_f16 env src0 src1 = true := by
      unfold ggml_vk_mul_mat at h
      split_ifs at h with _ _ _ h4
      exact h4
    have hlt : env.ggml_nelements src1 * 2 < 2 ^ 64 := by omega
    simp only [ggml_vk_mul_mat_get_wsize, hu, if_true, sizeof_ggml_fp16_t, u64_of_lt _ hlt]
    omega
  · intro hflag
    have hoff := mul_mat_use_f16_flag_off env src0 src1 hflag
    have hw : ggml_vk_mul_mat_get_wsize env src0 src1 = 0 := by
      simp [ggml_vk_mul_mat_get_wsize, hoff]
    refine ⟨?_, hw, fun _ => hw⟩
    intro h
    unfold ggml_vk_mul_mat at h
    split_ifs at h with _ _ _ h4
    rw [hoff] at h4
    exact absurd h4 (by decide)

/-- C14, instance: were the flag set, the F16 weights of 1,000,000 bytes and the F32
activations of 100,000 elements would select the half-precision branch with a workspace of
200,000 bytes; with the flag as the source has it the same tensors run the quantized path and
the workspace size is 0. -/
theorem mul_mat_get_wsize_spec_witness :
    ggml_vk_mul_mat (env_tables true)
        (packed_tensor GGML_TYPE_F16 ggml_backend.GGML_BACKEND_CPU 1000 500 1 1)
        (packed_tensor GGML_TYPE_F32 ggml_backend.GGML_BACKEND_CPU 1000 100 1 1)
        (packed_tensor GGML_TYPE_F32 ggml_backend.GGML_BACKEND_CPU 500 100 1 1) =
      mul_mat_result.f16_branch_nothing_run ∧
    ggml_vk_mul_mat_get_wsize (env_tables true)
        (packed_tensor GGML_TYPE_F16 ggml_backend.GGML_BACKEND_CPU 1000 500 1 1)
        (packed_tensor GGML_TYPE_F32 ggml_backend.GGML_BACKEND_CPU 1000 100 1 1) =
      2 * (env_tables true).ggml_nelements
        (packed_tensor GGML_TYPE_F32 ggml_backend.GGML_BACKEND_CPU 1000 100 1 1) ∧
    (env_tables false).vk_fp16_support = vk_fp16_support ∧
    (ggml_vk_mul_mat (env_tables false)
        (packed_tensor GGML_TYPE_F16 ggml_backend.GGML_BACKEND_CPU 1000 500 1 1)
        (packed_tensor GGML_TYPE_F32 ggml_backend.GGML_BACKEND_CPU 1000 100 1 1)
        (packed_tensor GGML_TYPE_F32 ggml_backend.GGML_BACKEND_CPU 500 100 1 1)).ran_one_path =
      true ∧
    ggml_vk_mul_mat_get_wsize (env_tables false)
        (packed_tensor GGML_TYPE_F16 ggml_backend.GGML_BACKEND_CPU 1000 500 1 1)
        (packed_tensor GGML_TYPE_F32 ggml_backend.GGML_BACKEND_CPU 1000 100 1 1) = 0 :=
  ⟨by decide,
   (mul_mat_get_wsize_spec (env_tables true)
      (packed_tensor GGML_TYPE_F16 ggml_backend.GGML_BACKEND_CPU 1000 500 1 1)
      (packed_tensor GGML_TYPE_F32 ggml_backend.GGML_BACKEND_CPU 1000 100 1 1)
      (packed_tensor GGML_TYPE_F32 ggml_backend.GGML_BACKEND_CPU 500 100 1 1)).1
      (by decide) (by decide),
   rfl, by decide,
   ((mul_mat_get_wsize_spec (env_tables false)
      (packed_tensor GGML_TYPE_F16 ggml_backend.GGML_BACKEND_CPU 1000 500 1 1)
      (packed_tensor GGML_TYPE_F32 ggml_backend.GGML_BACKEND_CPU 1000 100 1 1)
      (packed_tensor GGML_TYPE_F32 ggml_backend.GGML_BACKEND_CPU 500 100 1 1)).2 rfl).2.2
      (by decide)⟩

/-- C15: `ggml_vk_mul_mat` ends in its entry assertion whenever `ggml_vk_can_mul_mat` returns
false, and never reaches the final `GGML_ASSERT(false)` of the type dispatch when it returns
true. -/
theorem mul_mat_assertions (env : ggml_env) (src0 src1 dst : ggml_tensor) :
    (ggml_vk_can_mul_mat env src0 src1 dst = false →
      ggml_vk_mul_mat env src0 src1 dst = mul_mat_result.assert_can_mul_mat) ∧
    (ggml_vk_can_mul_mat env src0 src1 dst = true →
      ggml_vk_mul_mat env src0 src1 dst ≠ mul_mat_result.assert_false) := by
  constructor
  · intro h
    simp [ggml_vk_mul_mat, h]
  · intro h
    have hty := can_mul_mat_type env src0 src1 dst h
    unfold ggml_vk_mul_mat
    split_ifs with h1 h2 h3 h4 h5
    · rw [h] at h1
      exact absurd h1 (by decide)
    · exact fun hc => mul_mat_result.noConfusion hc
    · exact fun hc => mul_mat_result.noConfusion hc
    · exact fun hc => mul_mat_result.noConfusion hc
    · exact fun hc => mul_mat_result.noConfusion hc
    · rcases hty with hf | hf | hf
      · exact absurd hf h2
      · exact absurd hf h3
      · exact absurd hf h5

/-- C15, instance: host-resident F32 tensors of extent 16 are stopped by the entry assertion;
the eligible F32 tensors of the 1000 x 250 by 1000 x 100 product do not reach the final
assertion. -/
theorem mul_mat_assertions_witness :
    ggml_vk_mul_mat (env_tables false)
        (packed_tensor GGML_TYPE_F32 ggml_backend.GGML_BACKEND_CPU 16 16 1 1)
        (packed_tensor GGML_TYPE_F32 ggml_backend.GGML_BACKEND_CPU 16 16 1 1)
        (packed_tensor GGML_TYPE_F32 ggml_backend.GGML_BACKEND_CPU 16 16 1 1) =
      mul_mat_result.assert_can_mul_mat ∧
    ggml_vk_mul_mat (env_tables false)
        (packed_tensor GGML_TYPE_F32 ggml_backend.GGML_BACKEND_CPU 1000 250 1 1)
        (packed_tensor GGML_TYPE_F32 ggml_backend.GGML_BACKEND_CPU 1000 100 1 1)
        (packed_tensor GGML_TYPE_F32 ggml_backend.GGML_BACKEND_CPU 250 100 1 1) ≠
      mul_mat_result.assert_false :=
  ⟨(mul_mat_assertions (env_tables false)
      (packed_tensor GGML_TYPE_F32 ggml_backend.GGML_BACKEND_CPU 16 16 1 1)
      (packed_tensor GGML_TYPE_F32 ggml_backend.GGML_BACKEND_CPU 16 16 1 1)
      (packed_tensor GGML_TYPE_F32 ggml_backend.GGML_BACKEND_CPU 16 16 1 1)).1 (by decide),
   (mul_mat_assertions (env_tables false)
      (packed_tensor GGML_TYPE_F32 ggml_backend.GGML_BACKEND_CPU 1000 250 1 1)
      (packed_tensor GGML_TYPE_F32 ggml_backend.GGML_BACKEND_CPU 1000 100 1 1)
      (packed_tensor GGML_TYPE_F32 ggml_backend.GGML_BACKEND_CPU 250 100 1 1)).2 (by decide)⟩

/-! ## Execution paths -/

theorem countP_loop_events (p : pipeline_event → Bool) (body : Nat → List pipeline_event)
    (h : ∀ k : Nat, (body k).countP p = 0) (n : Nat) :
    (loop_events body n).countP p = 0 := by
  induction n with
  | zero => rfl
  | succ n ih => simp [loop_events, List.countP_append, ih, h n]

theorem countP_batch_loops (p : pipeline_event → Bool)
    (body : Nat → Nat → List pipeline_event)
    (h : ∀ a b : Nat, (body a b).countP p = 0) (n m : Nat) :
    (loop_events (fun a => loop_events (fun b => body a b) m) n).countP p = 0 :=
  countP_loop_events p _ (fun a => countP_loop_events p _ (fun b => h a b) m) n

theorem mem_loop_events (e : pipeline_event) (body : Nat → List pipeline_event) (n : Nat) :
    e ∈ loop_events body n → ∃ k : Nat, e ∈ body k := by
  induction n with
  | zero => intro h; simp [loop_events] at h
  | succ n ih =>
    intro h
    simp only [loop_events, List.mem_append] at h
    rcases h with h | h
    · exact ih h
    · exact ⟨n, h⟩

theorem mul_mat_f32_slice_releases (src0 : ggml_tensor) (v : vk_buf_var) (i03 i02 : Nat) :
    (mul_mat_f32_slice src0 i03 i02).countP (is_pool_free v) = 0 := by
  unfold mul_mat_f32_slice
  split_ifs <;> simp [is_pool_free]

theorem mul_mat_f32_slice_acquisitions (src0 : ggml_tensor) (v : vk_buf_var) (i03 i02 : Nat) :
    (mul_mat_f32_slice src0 i03 i02).countP (is_pool_malloc v) = 0 := by
  unfold mul_mat_f32_slice
  split_ifs <;> simp [is_pool_malloc]

theorem mul_mat_q_f32_slice_releases (src0 : ggml_tensor) (mv : Bool) (v : vk_buf_var)
    (i03 i02 : Nat) :
    (mul_mat_q_f32_slice src0 mv i03 i02).countP (is_pool_free v) = 0 := by
  unfold mul_mat_q_f32_slice
  split_ifs <;> simp [is_pool_free]

theorem mul_mat_q_f32_slice_acquisitions (src0 : ggml_tensor) (mv : Bool) (v : vk_buf_var)
    (i03 i02 : Nat) :
    (mul_mat_q_f32_slice src0 mv i03 i02).countP (is_pool_malloc v) = 0 := by
  unfold mul_mat_q_f32_slice
  split_ifs <;> simp [is_pool_malloc]

theorem backend_cases (b : ggml_backend) :
    b = ggml_backend.GGML_BACKEND_CPU ∨ b = ggml_backend.GGML_BACKEND_GPU := by
  cases b
  · exact Or.inl rfl
  · exact Or.inr rfl

/-- Releases of `ggml_vk_mul_mat_f32`: one of `d_Y`, one of `d_D`, one of `d_X` unless src0
is device-resident, none of `d_Q`. -/
theorem mul_mat_f32_releases (src0 src1 : ggml_tensor) (v : vk_buf_var) :
    releases v (ggml_vk_mul_mat_f32 src0 src1) =
      match v with
      | vk_buf_var.d_X => if src0.backend = ggml_backend.GGML_BACKEND_GPU then 0 else 1
      | vk_buf_var.d_Y => 1
      | vk_buf_var.d_D => 1
      | vk_buf_var.d_Q => 0 := by
  unfold releases ggml_vk_mul_mat_f32
  simp only [List.countP_append,
    countP_batch_loops _ _ (fun a b => mul_mat_f32_slice_releases src0 v a b)]
  rcases backend_cases src0.backend with hb | hb <;> cases v <;>
    simp [hb, is_pool_free, List.countP_cons]

/-- Acquisitions of `ggml_vk_mul_mat_f32`: the same counts as its releases. -/
theorem mul_mat_f32_acquisitions (src0 src1 : ggml_tensor) (v : vk_buf_var) :
    acquisitions v (ggml_vk_mul_mat_f32 src0 src1) =
      match v with
      | vk_buf_var.d_X => if src0.backend = ggml_backend.GGML_BACKEND_GPU then 0 else 1
      | vk_buf_var.d_Y => 1
      | vk_buf_var.d_D => 1
      | vk_buf_var.d_Q => 0 := by
  unfold acquisitions ggml_vk_mul_mat_f32
  simp only [List.countP_append,
    countP_batch_loops _ _ (fun a b => mul_mat_f32_slice_acquisitions src0 v a b)]
  rcases backend_cases src0.backend with hb | hb <;> cases v <;>
    simp [hb, is_pool_malloc, List.countP_cons]

/-- Releases of `ggml_vk_mul_mat_q_f32`: one of `d_Y`, one of `d_D`, one of `d_X` unless
`ne11 == 1`, one of `d_Q` when src0 is host-resident. -/
theorem mul_mat_q_f32_releases (env : ggml_env) (src0 src1 : ggml_tensor) (v : vk_buf_var) :
    releases v (ggml_vk_mul_mat_q_f32 env src0 src1) =
      match v with
      | vk_buf_var.d_X => if src1.ne1 = 1 then 0 else 1
      | vk_buf_var.d_Y => 1
      | vk_buf_var.d_D => 1
      | vk_buf_var.d_Q => if src0.backend = ggml_backend.GGML_BACKEND_CPU then 1 else 0 := by
  unfold releases ggml_vk_mul_mat_q_f32
  simp only [List.countP_append,
    countP_batch_loops _ _ (fun a b => mul_mat_q_f32_slice_releases src0 _ v a b)]
  rcases backend_cases src0.backend with hb | hb <;> cases v <;>
    by_cases h1 : src1.ne1 = 1 <;>
    simp [hb, h1, is_pool_free, List.countP_cons]

/-- Acquisitions of `ggml_vk_mul_mat_q_f32`: the same counts as its releases. -/
theorem mul_mat_q_f32_acquisitions (env : ggml_env) (src0 src1 : ggml_tensor)
    (v : vk_buf_var) :
    acquisitions v (ggml_vk_mul_mat_q_f32 env src0 src1) =
      match v with
      | vk_buf_var.d_X => if src1.ne1 = 1 then 0 else 1
      | vk_buf_var.d_Y => 1
      | vk_buf_var.d_D => 1
      | vk_buf_var.d_Q => if src0.backend = ggml_backend.GGML_BACKEND_CPU then 1 else 0 := by
  unfold acquisitions ggml_vk_mul_mat_q_f32
  simp only [List.countP_append,
    countP_batch_loops _ _ (fun a b => mul_mat_q_f32_slice_acquisitions src0 _ v a b)]
  rcases backend_cases src0.backend with hb | hb <;> cases v <;>
    by_cases h1 : src1.ne1 = 1 <;>
    simp [hb, h1, is_pool_malloc, List.countP_cons]

/-- C16: for host-resident packed F32 weights of 32 x 32 elements, `ggml_vk_mul_mat_f32` first
requests `sizeof(ggml_fp16_t) * x_ne = 2048` bytes for `d_X`, while the stager copies
`ne01*nb01 = 4*ne00*ne01 = 4096` bytes into it for one batch slice and so writes, for example,
byte 4094 of the destination. -/
theorem mul_mat_f32_weight_request_too_small :
    (ggml_vk_mul_mat_f32
        (packed_tensor GGML_TYPE_F32 ggml_backend.GGML_BACKEND_CPU 32 32 1 1)
        (packed_tensor GGML_TYPE_F32 ggml_backend.GGML_BACKEND_CPU 32 32 1 1)).head? =
      some (pipeline_event.pool_malloc 2048 vk_buf_var.d_X) ∧
    (packed_tensor GGML_TYPE_F32 ggml_backend.GGML_BACKEND_CPU 32 32 1 1).ne1 *
        (packed_tensor GGML_TYPE_F32 ggml_backend.GGML_BACKEND_CPU 32 32 1 1).nb1 = 4096 ∧
    4 * (packed_tensor GGML_TYPE_F32 ggml_backend.GGML_BACKEND_CPU 32 32 1 1).ne0 *
        (packed_tensor GGML_TYPE_F32 ggml_backend.GGML_BACKEND_CPU 32 32 1 1).ne1 = 4096 ∧
    ¬ 4096 ≤ 2048 ∧
    (ggml_vk_h2d_tensor_2d (env_tables false).ggml_type_size (env_tables false).ggml_blck_size
        ⟨1, 11, 2048⟩ zero_mem 0
        (packed_tensor GGML_TYPE_F32 ggml_backend.GGML_BACKEND_CPU 32 32 1 1) 0 0).dst_mem
        4094 = 255 ∧
    zero_mem 4094 = 0 := by
  decide

/-- C17: for activations of 65536 x 32768 elements (`ne11*ne10 = 2^31`), the `int` variable
`y_ne` holds `-2^31` and both execution paths request `sizeof(float) * y_ne`, which as a
`size_t` is `2^64 - 2^33 = 18446744065119617024` bytes, for `d_Y`; the mathematical value of
`4*ne11*ne10` is `2^33 = 8589934592`. -/
theorem mul_mat_activation_request_truncated :
    (ggml_vk_mul_mat_f32
        (packed_tensor GGML_TYPE_F32 ggml_backend.GGML_BACKEND_CPU 65536 32 1 1)
        (packed_tensor GGML_TYPE_F32 ggml_backend.GGML_BACKEND_CPU 65536 32768 1 1)).filter
        (is_pool_malloc vk_buf_var.d_Y) =
      [pipeline_event.pool_malloc 18446744065119617024 vk_buf_var.d_Y] ∧
    (ggml_vk_mul_mat_q_f32 (env_tables false)
        (packed_tensor 2 ggml_backend.GGML_BACKEND_CPU 65536 32 1 1)
        (packed_tensor GGML_TYPE_F32 ggml_backend.GGML_BACKEND_CPU 65536 32768 1 1)).filter
        (is_pool_malloc vk_buf_var.d_Y) =
      [pipeline_event.pool_malloc 18446744065119617024 vk_buf_var.d_Y] ∧
    4 * (packed_tensor GGML_TYPE_F32 ggml_backend.GGML_BACKEND_CPU 65536 32768 1 1).ne1 *
        (packed_tensor GGML_TYPE_F32 ggml_backend.GGML_BACKEND_CPU 65536 32768 1 1).ne0 =
      8589934592 ∧
    (18446744065119617024 : Nat) ≠ 8589934592 := by
  decide

/-- C18, as stated, fails: for weights with two batch slices (`ne02 = 2`, `ne03 = 1`) the
direct-float path performs the operations listed, with no release between the two slices and a
single release of each buffer after the loops; the quantized path likewise releases each of its
four buffers once, not twice. -/
theorem mul_mat_release_per_slice_counterexample :
    (packed_tensor GGML_TYPE_F32 ggml_backend.GGML_BACKEND_CPU 32 32 2 1).ne2 *
        (packed_tensor GGML_TYPE_F32 ggml_backend.GGML_BACKEND_CPU 32 32 2 1).ne3 = 2 ∧
    ggml_vk_mul_mat_f32
        (packed_tensor GGML_TYPE_F32 ggml_backend.GGML_BACKEND_CPU 32 32 2 1)
        (packed_tensor GGML_TYPE_F32 ggml_backend.GGML_BACKEND_CPU 32 32 2 1) =
      [pipeline_event.pool_malloc 2048 vk_buf_var.d_X,
       pipeline_event.pool_malloc 4096 vk_buf_var.d_Y,
       pipeline_event.pool_malloc 4096 vk_buf_var.d_D,
       pipeline_event.h2d_tensor_2d vk_buf_var.d_X tensor_arg.src0 0 0,
       pipeline_event.h2d_tensor_2d vk_buf_var.d_Y tensor_arg.src1 0 0,
       pipeline_event.vkFinish,
       pipeline_event.gemm,
       pipeline_event.copy_dst_to_host 0 0,
       pipeline_event.h2d_tensor_2d vk_buf_var.d_X tensor_arg.src0 0 1,
       pipeline_event.h2d_tensor_2d vk_buf_var.d_Y tensor_arg.src1 0 1,
       pipeline_event.vkFinish,
       pipeline_event.gemm,
       pipeline_event.copy_dst_to_host 1 0,
       pipeline_event.pool_free vk_buf_var.d_X,
       pipeline_event.pool_free vk_buf_var.d_Y,
       pipeline_event.pool_free vk_buf_var.d_D] ∧
    releases vk_buf_var.d_Y
        (ggml_vk_mul_mat_f32
          (packed_tensor GGML_TYPE_F32 ggml_backend.GGML_BACKEND_CPU 32 32 2 1)
          (packed_tensor GGML_TYPE_F32 ggml_backend.GGML_BACKEND_CPU 32 32 2 1)) ≠ 2 ∧
    (List.map
        (fun v => releases v
          (ggml_vk_mul_mat_q_f32 (env_tables false)
            (packed_tensor 2 ggml_backend.GGML_BACKEND_CPU 32 32 2 1)
            (packed_tensor GGML_TYPE_F32 ggml_backend.GGML_BACKEND_CPU 32 32 2 1)))
        [vk_buf_var.d_X, vk_buf_var.d_Y, vk_buf_var.d_D, vk_buf_var.d_Q]) = [1, 1, 1, 1] := by
  decide

theorem mul_mat_f32_acquires_before_releases_after (src0 src1 : ggml_tensor) :
    acquires_before_releases_after (ggml_vk_mul_mat_f32 src0 src1)
      (mul_mat_f32_batch_loops src0) (mul_mat_f32_pooled src0) := by
  refine ⟨(if src0.backend = ggml_backend.GGML_BACKEND_GPU then
        [pipeline_event.bind_src0_data vk_buf_var.d_X]
      else
        [pipeline_event.pool_malloc
          (u64 (sizeof_ggml_fp16_t *
            size_t_of_int (int_of_int64 ((src0.ne1 : Int) * (src0.ne0 : Int)))))
          vk_buf_var.d_X]) ++
      [pipeline_event.pool_malloc
         (u64 (sizeof_float *
           size_t_of_int (int_of_int64 ((src1.ne1 : Int) * (src1.ne0 : Int)))))
         vk_buf_var.d_Y,
       pipeline_event.pool_malloc
         (u64 (sizeof_float *
           size_t_of_int (int_of_int64 ((src1.ne1 : Int) * (src0.ne1 : Int)))))
         vk_buf_var.d_D],
    (if src0.backend ≠ ggml_backend.GGML_BACKEND_GPU then
        [pipeline_event.pool_free vk_buf_var.d_X]
      else []) ++
      [pipeline_event.pool_free vk_buf_var.d_Y, pipeline_event.pool_free vk_buf_var.d_D],
    ?_, ?_, ?_, ?_⟩
  · simp only [ggml_vk_mul_mat_f32, mul_mat_f32_batch_loops, List.append_assoc]
  · intro v
    rcases backend_cases src0.backend with hb | hb <;> cases v <;>
      simp [hb, acquisitions, releases, mul_mat_f32_pooled, is_pool_malloc, is_pool_free,
        List.countP_cons]
  · intro v
    exact ⟨countP_batch_loops _ _ (fun a b => mul_mat_f32_slice_acquisitions src0 v a b) _ _,
      countP_batch_loops _ _ (fun a b => mul_mat_f32_slice_releases src0 v a b) _ _⟩
  · intro v
    rcases backend_cases src0.backend with hb | hb <;> cases v <;>
      simp [hb, acquisitions, releases, mul_mat_f32_pooled, is_pool_malloc, is_pool_free,
        List.countP_cons]

theorem mul_mat_q_f32_acquires_before_releases_after (env : ggml_env)
    (src0 src1 : ggml_tensor) :
    acquires_before_releases_after (ggml_vk_mul_mat_q_f32 env src0 src1)
      (mul_mat_q_f32_batch_loops src0 src1) (mul_mat_q_f32_pooled src0 src1) := by
  refine ⟨(if decide ((src1.ne1 : Int) = 1) = false then
        [pipeline_event.pool_malloc
          (u64 (sizeof_float *
            size_t_of_int (int_of_int64 ((src0.ne1 : Int) * (src0.ne0 : Int)))))
          vk_buf_var.d_X]
      else []) ++
      [pipeline_event.pool_malloc
         (u64 (sizeof_float *
           size_t_of_int (int_of_int64 ((src1.ne1 : Int) * (src1.ne0 : Int)))))
         vk_buf_var.d_Y,
       pipeline_event.pool_malloc
         (u64 (sizeof_float *
           size_t_of_int (int_of_int64 ((src1.ne1 : Int) * (src0.ne1 : Int)))))
         vk_buf_var.d_D] ++
      (if src0.backend = ggml_backend.GGML_BACKEND_CPU then
        [pipeline_event.pool_malloc
          (u64 (env.ggml_type_size src0.type *
              size_t_of_int (int_of_int64 ((src0.ne1 : Int) * (src0.ne0 : Int)))) /
            env.ggml_blck_size src0.type)
          vk_buf_var.d_Q]
      else []),
    (if decide ((src1.ne1 : Int) = 1) = false then
        [pipeline_event.pool_free vk_buf_var.d_X]
      else []) ++
      [pipeline_event.pool_free vk_buf_var.d_Y, pipeline_event.pool_free vk_buf_var.d_D] ++
      (if src0.backend = ggml_backend.GGML_BACKEND_CPU then
        [pipeline_event.pool_free vk_buf_var.d_Q]
      else []),
    ?_, ?_, ?_, ?_⟩
  · simp only [ggml_vk_mul_mat_q_f32, mul_mat_q_f32_batch_loops, List.append_assoc]
  · intro v
    rcases backend_cases src0.backend with hb | hb <;> cases v <;>
      by_cases h1 : src1.ne1 = 1 <;>
      simp [hb, h1, acquisitions, releases, mul_mat_q_f32_pooled, is_pool_malloc,
        is_pool_free, List.countP_cons, List.countP_append]
  · intro v
    exact ⟨countP_batch_loops _ _
        (fun a b => mul_mat_q_f32_slice_acquisitions src0 _ v a b) _ _,
      countP_batch_loops _ _ (fun a b => mul_mat_q_f32_slice_releases src0 _ v a b) _ _⟩
  · intro v
    rcases backend_cases src0.backend with hb | hb <;> cases v <;>
      by_cases h1 : src1.ne1 = 1 <;>
      simp [hb, h1, acquisitions, releases, mul_mat_q_f32_pooled, is_pool_malloc,
        is_pool_free, List.countP_cons, List.countP_append]

/-- C18, amended: whatever the number of batch slices, each execution path is its pool
acquisitions, then the batch loops, then its pool releases: the operations before the loops
contain every acquisition and no release, the loops (and each single batch-slice iteration)
contain neither an acquisition nor a release, and the operations after the loops contain every
release and no acquisition.  Over the whole call the direct-float path acquires and releases
`d_Y` and `d_D` once each and `d_X` once unless src0 is device-resident; the quantized path
acquires and releases `d_Y` and `d_D` once each, `d_X` once unless `ne11 == 1`, and `d_Q` once
when src0 is host-resident. -/
theorem mul_mat_releases_once_per_call (env : ggml_env) (src0 src1 : ggml_tensor) :
    acquires_before_releases_after (ggml_vk_mul_mat_f32 src0 src1)
      (mul_mat_f32_batch_loops src0) (mul_mat_f32_pooled src0) ∧
    acquires_before_releases_after (ggml_vk_mul_mat_q_f32 env src0 src1)
      (mul_mat_q_f32_batch_loops src0 src1) (mul_mat_q_f32_pooled src0 src1) ∧
    (∀ (v : vk_buf_var) (i03 i02 : Nat),
      acquisitions v (mul_mat_f32_slice src0 i03 i02) = 0 ∧
      releases v (mul_mat_f32_slice src0 i03 i02) = 0) ∧
    (∀ (v : vk_buf_var) (mv : Bool) (i03 i02 : Nat),
      acquisitions v (mul_mat_q_f32_slice src0 mv i03 i02) = 0 ∧
      releases v (mul_mat_q_f32_slice src0 mv i03 i02) = 0) ∧
    (∀ v : vk_buf_var,
      acquisitions v (ggml_vk_mul_mat_f32 src0 src1) = mul_mat_f32_pooled src0 v ∧
      releases v (ggml_vk_mul_mat_f32 src0 src1) = mul_mat_f32_pooled src0 v) ∧
    (∀ v : vk_buf_var,
      acquisitions v (ggml_vk_mul_mat_q_f32 env src0 src1) = mul_mat_q_f32_pooled src0 src1 v ∧
      releases v (ggml_vk_mul_mat_q_f32 env src0 src1) = mul_mat_q_f32_pooled src0 src1 v) ∧
    releases vk_buf_var.d_Y (ggml_vk_mul_mat_f32 src0 src1) = 1 ∧
    releases vk_buf_var.d_D (ggml_vk_mul_mat_f32 src0 src1) = 1 ∧
    releases vk_buf_var.d_X (ggml_vk_mul_mat_f32 src0 src1) =
      (if src0.backend = ggml_backend.GGML_BACKEND_GPU then 0 else 1) ∧
    releases vk_buf_var.d_Y (ggml_vk_mul_mat_q_f32 env src0 src1) = 1 ∧
    releases vk_buf_var.d_D (ggml_vk_mul_mat_q_f32 env src0 src1) = 1 ∧
    releases vk_buf_var.d_X (ggml_vk_mul_mat_q_f32 env src0 src1) =
      (if src1.ne1 = 1 then 0 else 1) ∧
    releases vk_buf_var.d_Q (ggml_vk_mul_mat_q_f32 env src0 src1) =
      (if src0.backend = ggml_backend.GGML_BACKEND_CPU then 1 else 0) := by
  refine ⟨mul_mat_f32_acquires_before_releases_after src0 src1,
    mul_mat_q_f32_acquires_before_releases_after env src0 src1,
    fun v i03 i02 => ⟨mul_mat_f32_slice_acquisitions src0 v i03 i02,
      mul_mat_f32_slice_releases src0 v i03 i02⟩,
    fun v mv i03 i02 => ⟨mul_mat_q_f32_slice_acquisitions src0 mv v i03 i02,
      mul_mat_q_f32_slice_releases src0 mv v i03 i02⟩,
    fun v => ?_, fun v => ?_,
    mul_mat_f32_releases src0 src1 vk_buf_var.d_Y,
    mul_mat_f32_releases src0 src1 vk_buf_var.d_D,
    mul_mat_f32_releases src0 src1 vk_buf_var.d_X,
    mul_mat_q_f32_releases env src0 src1 vk_buf_var.d_Y,
    mul_mat_q_f32_releases env src0 src1 vk_buf_var.d_D,
    mul_mat_q_f32_releases env src0 src1 vk_buf_var.d_X,
    mul_mat_q_f32_releases env src0 src1 vk_buf_var.d_Q⟩
  · rw [mul_mat_f32_acquisitions, mul_mat_f32_releases]
    cases v <;> exact ⟨rfl, rfl⟩
  · rw [mul_mat_q_f32_acquisitions, mul_mat_q_f32_releases]
    cases v <;> exact ⟨rfl, rfl⟩

theorem mul_mat_f32_slice_h2d_src0 (src0 : ggml_tensor)
    (h : src0.backend = ggml_backend.GGML_BACKEND_GPU) (i03 i02 : Nat) :
    (mul_mat_f32_slice src0 i03 i02).countP (is_h2d_of tensor_arg.src0) = 0 := by
  simp [mul_mat_f32_slice, h, is_h2d_of]

theorem mul_mat_q_f32_slice_h2d_src0 (src0 : ggml_tensor) (mv : Bool)
    (h : src0.backend = ggml_backend.GGML_BACKEND_GPU) (i03 i02 : Nat) :
    (mul_mat_q_f32_slice src0 mv i03 i02).countP (is_h2d_of tensor_arg.src0) = 0 := by
  cases mv <;> simp [mul_mat_q_f32_slice, h, is_h2d_of]

/-- In the direct-float path `src0->data` is only ever assigned to `d_X`, and only when src0 is
device-resident. -/
theorem mul_mat_f32_bind (src0 src1 : ggml_tensor) (v : vk_buf_var)
    (h : pipeline_event.bind_src0_data v ∈ ggml_vk_mul_mat_f32 src0 src1) :
    v = vk_buf_var.d_X ∧ src0.backend = ggml_backend.GGML_BACKEND_GPU := by
  unfold ggml_vk_mul_mat_f32 at h
  simp only [List.mem_append] at h
  rcases h with (((h | h) | h) | h) | h
  · split_ifs at h with hb
    · simp at h
      exact ⟨h, hb⟩
    · simp at h
  · simp at h
  · obtain ⟨a, ha⟩ := mem_loop_events _ _ _ h
    obtain ⟨b, hb⟩ := mem_loop_events _ _ _ ha
    unfold mul_mat_f32_slice at hb
    split_ifs at hb <;> simp at hb
  · split_ifs at h <;> simp at h
  · simp at h

theorem mul_mat_q_f32_slice_bind (src0 : ggml_tensor) (mv : Bool) (i03 i02 : Nat)
    (v : vk_buf_var)
    (h : pipeline_event.bind_src0_data v ∈ mul_mat_q_f32_slice src0 mv i03 i02) :
    v = vk_buf_var.d_Q ∧ src0.backend = ggml_backend.GGML_BACKEND_GPU := by
  rcases backend_cases src0.backend with hc | hc
  · cases mv <;> simp [mul_mat_q_f32_slice, hc] at h
  · cases mv <;> simp [mul_mat_q_f32_slice, hc] at h <;> exact ⟨h, hc⟩

/-- In the quantized path `src0->data` is only ever assigned to `d_Q`, and only when src0 is
device-resident. -/
theorem mul_mat_q_f32_bind (env : ggml_env) (src0 src1 : ggml_tensor) (v : vk_buf_var)
    (h : pipeline_event.bind_src0_data v ∈ ggml_vk_mul_mat_q_f32 env src0 src1) :
    v = vk_buf_var.d_Q ∧ src0.backend = ggml_backend.GGML_BACKEND_GPU := by
  unfold ggml_vk_mul_mat_q_f32 at h
  simp only [List.mem_append] at h
  rcases h with (((((h | h) | h) | h) | h) | h) | h
  · split_ifs at h <;> simp at h
  · simp at h
  · split_ifs at h <;> simp at h
  · obtain ⟨a, ha⟩ := mem_loop_events _ _ _ h
    obtain ⟨b, hb⟩ := mem_loop_events _ _ _ ha
    exact mul_mat_q_f32_slice_bind src0 _ a b v hb
  · split_ifs at h <;> simp at h
  · simp at h
  · split_ifs at h <;> simp at h

/-- Call-level facts about the variable that stands for src0's data.  When src0 is
device-resident, neither execution path stages src0 through `ggml_vk_h2d_tensor_2d`, acquires a
pool buffer into that variable (`d_X` in the direct-float path, `d_Q` in the quantized path),
or releases it; a variable to which `src0->data` is assigned is neither acquired from nor
released to the pool, and every buffer variable occurs in as many releases as acquisitions, at
most one. -/
theorem mul_mat_device_resident_src0 (env : ggml_env) (src0 src1 : ggml_tensor) :
    (src0.backend = ggml_backend.GGML_BACKEND_GPU →
      (ggml_vk_mul_mat_f32 src0 src1).countP (is_h2d_of tensor_arg.src0) = 0 ∧
      acquisitions vk_buf_var.d_X (ggml_vk_mul_mat_f32 src0 src1) = 0 ∧
      releases vk_buf_var.d_X (ggml_vk_mul_mat_f32 src0 src1) = 0 ∧
      (ggml_vk_mul_mat_q_f32 env src0 src1).countP (is_h2d_of tensor_arg.src0) = 0 ∧
      acquisitions vk_buf_var.d_Q (ggml_vk_mul_mat_q_f32 env src0 src1) = 0 ∧
      releases vk_buf_var.d_Q (ggml_vk_mul_mat_q_f32 env src0 src1) = 0) ∧
    (∀ v : vk_buf_var, pipeline_event.bind_src0_data v ∈ ggml_vk_mul_mat_f32 src0 src1 →
      acquisitions v (ggml_vk_mul_mat_f32 src0 src1) = 0 ∧
      releases v (ggml_vk_mul_mat_f32 src0 src1) = 0) ∧
    (∀ v : vk_buf_var, pipeline_event.bind_src0_data v ∈ ggml_vk_mul_mat_q_f32 env src0 src1 →
      acquisitions v (ggml_vk_mul_mat_q_f32 env src0 src1) = 0 ∧
      releases v (ggml_vk_mul_mat_q_f32 env src0 src1) = 0) ∧
    (∀ v : vk_buf_var,
      acquisitions v (ggml_vk_mul_mat_f32 src0 src1) =
        releases v (ggml_vk_mul_mat_f32 src0 src1) ∧
      releases v (ggml_vk_mul_mat_f32 src0 src1) ≤ 1) ∧
    (∀ v : vk_buf_var,
      acquisitions v (ggml_vk_mul_mat_q_f32 env src0 src1) =
        releases v (ggml_vk_mul_mat_q_f32 env src0 src1) ∧
      releases v (ggml_vk_mul_mat_q_f32 env src0 src1) ≤ 1) := by
  have hgpu : src0.backend = ggml_backend.GGML_BACKEND_GPU →
      (ggml_vk_mul_mat_f32 src0 src1).countP (is_h2d_of tensor_arg.src0) = 0 ∧
      acquisitions vk_buf_var.d_X (ggml_vk_mul_mat_f32 src0 src1) = 0 ∧
      releases vk_buf_var.d_X (ggml_vk_mul_mat_f32 src0 src1) = 0 ∧
      (ggml_vk_mul_mat_q_f32 env src0 src1).countP (is_h2d_of tensor_arg.src0) = 0 ∧
      acquisitions vk_buf_var.d_Q (ggml_vk_mul_mat_q_f32 env src0 src1) = 0 ∧
      releases vk_buf_var.d_Q (ggml_vk_mul_mat_q_f32 env src0 src1) = 0 := by
    intro h
    refine ⟨?_, ?_, ?_, ?_, ?_, ?_⟩
    · unfold ggml_vk_mul_mat_f32
      simp only [List.countP_append,
        countP_batch_loops _ _ (fun a b => mul_mat_f32_slice_h2d_src0 src0 h a b)]
      simp [h, is_h2d_of]
    · rw [mul_mat_f32_acquisitions]
      simp [h]
    · rw [mul_mat_f32_releases]
      simp [h]
    · unfold ggml_vk_mul_mat_q_f32
      simp only [List.countP_append,
        countP_batch_loops _ _ (fun a b => mul_mat_q_f32_slice_h2d_src0 src0 _ h a b)]
      by_cases h1 : src1.ne1 = 1 <;> simp [h, h1, is_h2d_of]
    · rw [mul_mat_q_f32_acquisitions]
      simp [h]
    · rw [mul_mat_q_f32_releases]
      simp [h]
  refine ⟨hgpu, ?_, ?_, ?_, ?_⟩
  · intro v hv
    obtain ⟨hv1, hv2⟩ := mul_mat_f32_bind src0 src1 v hv
    subst hv1
    exact ⟨(hgpu hv2).2.1, (hgpu hv2).2.2.1⟩
  · intro v hv
    obtain ⟨hv1, hv2⟩ := mul_mat_q_f32_bind env src0 src1 v hv
    subst hv1
    exact ⟨(hgpu hv2).2.2.2.2.1, (hgpu hv2).2.2.2.2.2⟩
  · intro v
    rw [mul_mat_f32_acquisitions, mul_mat_f32_releases]
    refine ⟨rfl, ?_⟩
    cases v <;> simp
    split_ifs <;> omega
  · intro v
    rw [mul_mat_q_f32_acquisitions, mul_mat_q_f32_releases]
    refine ⟨rfl, ?_⟩
    cases v <;> simp <;> split_ifs <;> omega

/-- C19: a call of `ggml_vk_mul_mat_f32` on the statically initialised (all-Empty) pool with
host-resident 32 x 32 F32 operands, its pool calls carried out by `ggml_vk_pool_malloc` and
`ggml_vk_pool_free`: the three acquisitions miss and obtain the buffers made by
`vmaCreateBuffer` (handles 100, 101, 102), which land in records the path's variables never
see; the three releases hand the untouched default records of `d_X`, `d_Y`, `d_D` to
`ggml_vk_pool_free`.  No buffer obtained from the pool is passed to `ggml_vk_pool_free`, and
none is destroyed. -/
theorem mul_mat_f32_obtained_buffers_never_released :
    (run_pool_calls fresh_handles default (pool_calls_init g_vk_buffer_pool_init)
        (ggml_vk_mul_mat_f32
          (packed_tensor GGML_TYPE_F32 ggml_backend.GGML_BACKEND_CPU 32 32 1 1)
          (packed_tensor GGML_TYPE_F32 ggml_backend.GGML_BACKEND_CPU 32 32 1 1))).obtained =
      [⟨100, 200, 2048⟩, ⟨101, 201, 4096⟩, ⟨102, 202, 4096⟩] ∧
    (run_pool_calls fresh_handles default (pool_calls_init g_vk_buffer_pool_init)
        (ggml_vk_mul_mat_f32
          (packed_tensor GGML_TYPE_F32 ggml_backend.GGML_BACKEND_CPU 32 32 1 1)
          (packed_tensor GGML_TYPE_F32 ggml_backend.GGML_BACKEND_CPU 32 32 1 1))).released =
      [⟨0, 0, 0⟩, ⟨0, 0, 0⟩, ⟨0, 0, 0⟩] ∧
    (∀ b ∈ (run_pool_calls fresh_handles default (pool_calls_init g_vk_buffer_pool_init)
        (ggml_vk_mul_mat_f32
          (packed_tensor GGML_TYPE_F32 ggml_backend.GGML_BACKEND_CPU 32 32 1 1)
          (packed_tensor GGML_TYPE_F32 ggml_backend.GGML_BACKEND_CPU 32 32 1 1))).obtained,
      b ∉ (run_pool_calls fresh_handles default (pool_calls_init g_vk_buffer_pool_init)
        (ggml_vk_mul_mat_f32
          (packed_tensor GGML_TYPE_F32 ggml_backend.GGML_BACKEND_CPU 32 32 1 1)
          (packed_tensor GGML_TYPE_F32 ggml_backend.GGML_BACKEND_CPU 32 32 1 1))).released) ∧
    (run_pool_calls fresh_handles default (pool_calls_init g_vk_buffer_pool_init)
        (ggml_vk_mul_mat_f32
          (packed_tensor GGML_TYPE_F32 ggml_backend.GGML_BACKEND_CPU 32 32 1 1)
          (packed_tensor GGML_TYPE_F32 ggml_backend.GGML_BACKEND_CPU 32 32 1 1))).calls =
      [vma_call.vmaCreateBuffer 2048, vma_call.vmaCreateBuffer 4096,
       vma_call.vmaCreateBuffer 4096] := by
  decide

end GgmlVulkan
